import Mathlib

namespace PngToNbt

/-
Shallow embedding of the PNG-to-NBT converter core.

Sources embedded here:
  * the palette table, shaded-color lookup and minimal ZIP writer
    (website data module: BASE_COLORS, SHADE_MULTIPLIERS, getColorLookup,
    getShadedRgb, FRAGILE_BLOCKS, isFragileBlock, crc32, createZip);
  * the conversion core (validatePng, getWaterDepth, resolveBlockName,
    buildStaircaseBlocks, the staircase variants, the support inserters,
    normalizeAndMeasure, the suppress builders, parseBlockId,
    writeStructureNbt, convertToNbt).

Modelling conventions, applied throughout:
  * JS numbers used as integers are Nat or Int; 32-bit bitwise steps take an
    explicit mod 2 ^ 32;
  * JS Map and Set with template-string keys such as "r,g,b" or "x,y,z" are
    modelled with the underlying tuples as keys: the string encodings in the
    source are injective on the tuples, so membership and overwrite behaviour
    coincide;
  * Map.set followed by get returns the binding set last; assoc lists below
    are read with a fold that keeps the last match, reproducing that;
  * in-place mutation of block lists becomes returning the rewritten list,
    preserving the order of entries and the order of appends;
  * the browser gzip stream is an external API, so the compressor is a
    parameter of the conversion entry point.
-/

/-! ## Palette table -/

structure BaseColor where
  name : String
  r : Nat
  g : Nat
  b : Nat
  isWater : Bool
  blocks : List String
deriving DecidableEq

/-- The 62 base map colors (index 0 = transparent NONE bucket). -/
def BASE_COLORS : List BaseColor := [
  ⟨"NONE", 0, 0, 0, false, ["glass", "glass_pane", "barrier", "chain", "end_rod", "ladder", "rail", "powered_rail", "detector_rail", "activator_rail", "lever", "torch", "wall_torch", "soul_torch", "soul_wall_torch", "redstone_wire", "repeater", "comparator", "tripwire_hook", "tripwire", "flower_pot", "cake", "stone_button", "oak_button", "spruce_button", "birch_button", "jungle_button", "acacia_button", "dark_oak_button", "mangrove_button", "cherry_button", "bamboo_button", "crimson_button", "warped_button", "pale_oak_button", "white_stained_glass_pane", "orange_stained_glass_pane", "magenta_stained_glass_pane", "light_blue_stained_glass_pane", "yellow_stained_glass_pane", "lime_stained_glass_pane", "pink_stained_glass_pane", "gray_stained_glass_pane", "light_gray_stained_glass_pane", "cyan_stained_glass_pane", "purple_stained_glass_pane", "blue_stained_glass_pane", "brown_stained_glass_pane", "green_stained_glass_pane", "red_stained_glass_pane", "black_stained_glass_pane", "structure_void", "light", "nether_portal", "player_head", "zombie_head", "skeleton_skull", "wither_skeleton_skull", "creeper_head", "dragon_head", "piglin_head"]⟩,
  ⟨"GRASS", 127, 178, 56, false, ["grass_block", "slime_block"]⟩,
  ⟨"SAND", 247, 233, 163, false, ["sand", "sandstone", "birch_planks", "glowstone", "end_stone", "end_stone_bricks", "bone_block", "scaffolding", "candle", "suspicious_sand", "birch_log", "birch_stripped_log", "birch_wood", "birch_stripped_wood", "birch_sign", "birch_pressure_plate", "birch_trapdoor", "birch_stairs", "birch_slab", "birch_fence_gate", "birch_fence", "birch_door", "turtle_egg", "ochre_froglight", "sandstone_slab", "sandstone_stairs", "sandstone_wall", "cut_sandstone", "cut_sandstone_slab", "chiseled_sandstone", "smooth_sandstone", "smooth_sandstone_slab", "smooth_sandstone_stairs", "end_stone_brick_slab", "end_stone_brick_stairs", "end_stone_brick_wall"]⟩,
  ⟨"WOOL", 199, 199, 199, false, ["mushroom_stem", "cobweb", "white_candle"]⟩,
  ⟨"FIRE", 255, 0, 0, false, ["tnt", "redstone_block", "lava", "fire"]⟩,
  ⟨"ICE", 160, 160, 255, false, ["ice", "packed_ice", "blue_ice", "frosted_ice"]⟩,
  ⟨"METAL", 167, 167, 167, false, ["iron_block", "iron_door", "iron_trapdoor", "iron_bars", "anvil", "brewing_stand", "heavy_weighted_pressure_plate", "lantern", "grindstone", "lodestone", "heavy_core", "pale_oak_leaves", "closed_eyeblossom"]⟩,
  ⟨"PLANT", 0, 124, 0, false, ["oak_leaves", "spruce_leaves", "birch_leaves", "jungle_leaves", "acacia_leaves", "dark_oak_leaves", "lily_pad", "cactus", "vines", "sugar_cane", "fern", "short_grass", "tall_grass", "pink_petals"]⟩,
  ⟨"SNOW", 255, 255, 255, false, ["white_wool", "snow_block", "snow", "white_carpet", "white_concrete", "white_concrete_powder", "white_stained_glass", "white_glazed_terracotta", "powder_snow", "white_shulker_box"]⟩,
  ⟨"CLAY", 164, 168, 184, false, ["clay"]⟩,
  ⟨"DIRT", 151, 109, 77, false, ["dirt", "coarse_dirt", "jungle_planks", "granite", "polished_granite", "farmland", "jungle_slab", "jungle_stairs", "packed_mud", "dirt_path", "granite_slab", "granite_stairs", "granite_wall", "polished_granite_slab", "polished_granite_stairs", "jungle_log", "jungle_stripped_log", "jungle_wood", "jungle_stripped_wood", "jungle_sign", "jungle_pressure_plate", "jungle_trapdoor", "jungle_fence_gate", "jungle_fence", "jungle_door", "jukebox", "brown_mushroom_block", "rooted_dirt", "hanging_roots"]⟩,
  ⟨"STONE", 112, 112, 112, false, ["cobblestone", "stone", "stone_bricks", "andesite", "polished_andesite", "gravel", "furnace", "dispenser", "dropper", "observer", "hopper", "cobblestone_stairs", "stone_slab", "cobblestone_slab", "stone_brick_slab", "stonecutter", "spawner", "ender_chest", "cauldron", "stone_stairs", "bedrock", "gold_ore", "iron_ore", "coal_ore", "lapis_lazuli_ore", "diamond_ore", "mossy_cobblestone", "mossy_cobblestone_slab", "mossy_cobblestone_stairs", "mossy_cobblestone_wall", "stone_pressure_plate", "redstone_ore", "emerald_ore", "smooth_stone", "smooth_stone_slab", "smoker", "blast_furnace", "cobblestone_wall", "stone_brick_stairs", "stone_brick_wall", "mossy_stone_bricks", "mossy_stone_brick_slab", "mossy_stone_brick_stairs", "mossy_stone_brick_wall", "cracked_stone_bricks", "chiseled_stone_bricks", "andesite_slab", "andesite_stairs", "andesite_wall", "polished_andesite_slab", "polished_andesite_stairs", "copper_ore", "crafter", "pale_oak_wood", "pale_oak_log"]⟩,
  ⟨"WATER", 64, 64, 255, true, ["water", "oak_leaves[waterlogged=true]", "spruce_leaves[waterlogged=true]", "birch_leaves[waterlogged=true]", "jungle_leaves[waterlogged=true]", "acacia_leaves[waterlogged=true]", "dark_oak_leaves[waterlogged=true]", "cherry_leaves[waterlogged=true]", "pale_oak_leaves[waterlogged=true]", "mangrove_leaves[waterlogged=true]", "azalea_leaves[waterlogged=true]", "flowering_azalea_leaves[waterlogged=true]"]⟩,
  ⟨"WOOD", 143, 119, 72, false, ["oak_planks", "oak_slab", "oak_stairs", "oak_sign", "oak_pressure_plate", "oak_trapdoor", "oak_fence", "oak_fence_gate", "oak_door", "crafting_table", "bookshelf", "note_block", "chest", "trapped_chest", "daylight_detector", "loom", "composter", "lectern", "smithing_table", "fletching_table", "beehive", "oak_wood", "oak_stripped_log", "oak_stripped_wood", "barrel", "cartography_table", "chiseled_bookshelf", "petrified_oak_slab", "bamboo_sapling", "dead_bush"]⟩,
  ⟨"QUARTZ", 255, 252, 245, false, ["quartz_block", "smooth_quartz", "chiseled_quartz_block", "quartz_pillar", "quartz_slab", "quartz_stairs", "diorite", "polished_diorite", "sea_lantern", "target", "pale_oak_planks", "diorite_slab", "diorite_stairs", "diorite_wall", "polished_diorite_slab", "polished_diorite_stairs", "smooth_quartz_slab", "smooth_quartz_stairs", "pale_oak_slab", "pale_oak_stairs", "pale_oak_fence", "pale_oak_fence_gate", "pale_oak_door", "pale_oak_trapdoor", "pale_oak_sign", "pale_oak_pressure_plate", "pale_oak_stripped_log", "pale_oak_stripped_wood"]⟩,
  ⟨"COLOR_ORANGE", 216, 127, 51, false, ["acacia_planks", "acacia_slab", "acacia_stairs", "acacia_log", "pumpkin", "jack_o_lantern", "terracotta", "red_sand", "red_sandstone", "orange_wool", "orange_carpet", "orange_concrete", "orange_glazed_terracotta", "honey_block", "honeycomb_block", "lightning_rod", "copper_block", "acacia_sign", "acacia_trapdoor", "acacia_pressure_plate", "acacia_fence_gate", "acacia_fence", "acacia_door", "acacia_stripped_log", "acacia_stripped_wood", "orange_shulker_box", "orange_stained_glass", "orange_concrete_powder", "orange_candle", "carved_pumpkin", "red_sandstone_slab", "red_sandstone_stairs", "red_sandstone_wall", "cut_red_sandstone", "cut_red_sandstone_slab", "chiseled_red_sandstone", "smooth_red_sandstone", "smooth_red_sandstone_slab", "smooth_red_sandstone_stairs", "raw_copper_block", "creaking_heart", "open_eyeblossom", "waxed_copper_block", "cut_copper", "cut_copper_slab", "cut_copper_stairs", "waxed_cut_copper", "waxed_cut_copper_slab", "waxed_cut_copper_stairs"]⟩,
  ⟨"COLOR_MAGENTA", 178, 76, 216, false, ["magenta_wool", "magenta_carpet", "magenta_concrete", "magenta_glazed_terracotta", "purpur_block", "purpur_pillar", "purpur_slab", "purpur_stairs", "magenta_shulker_box", "magenta_stained_glass", "magenta_concrete_powder", "magenta_candle"]⟩,
  ⟨"COLOR_LIGHT_BLUE", 102, 153, 216, false, ["light_blue_wool", "light_blue_carpet", "light_blue_concrete", "light_blue_glazed_terracotta", "light_blue_shulker_box", "light_blue_stained_glass", "light_blue_concrete_powder", "light_blue_candle"]⟩,
  ⟨"COLOR_YELLOW", 229, 229, 51, false, ["yellow_wool", "yellow_carpet", "yellow_concrete", "yellow_glazed_terracotta", "sponge", "wet_sponge", "hay_block", "bee_nest", "bamboo_planks", "yellow_shulker_box", "yellow_stained_glass", "yellow_concrete_powder", "yellow_candle"]⟩,
  ⟨"COLOR_LIGHT_GREEN", 127, 204, 25, false, ["lime_wool", "lime_carpet", "lime_concrete", "lime_glazed_terracotta", "melon", "lime_shulker_box", "lime_stained_glass", "lime_concrete_powder", "lime_candle"]⟩,
  ⟨"COLOR_PINK", 242, 127, 165, false, ["pink_wool", "pink_carpet", "pink_concrete", "pink_glazed_terracotta", "brain_coral_block", "pearlescent_froglight", "cherry_leaves", "pink_shulker_box", "pink_stained_glass", "pink_concrete_powder", "pink_candle"]⟩,
  ⟨"COLOR_GRAY", 76, 76, 76, false, ["gray_wool", "gray_carpet", "gray_concrete", "gray_glazed_terracotta", "tinted_glass", "acacia_wood", "gray_shulker_box", "gray_stained_glass", "gray_concrete_powder", "gray_candle"]⟩,
  ⟨"COLOR_LIGHT_GRAY", 153, 153, 153, false, ["light_gray_wool", "light_gray_carpet", "light_gray_concrete", "light_gray_glazed_terracotta", "structure_block", "jigsaw_block", "pale_moss_block", "pale_moss_carpet", "light_gray_shulker_box", "light_gray_stained_glass", "light_gray_concrete_powder", "light_gray_candle"]⟩,
  ⟨"COLOR_CYAN", 76, 127, 153, false, ["cyan_wool", "cyan_carpet", "cyan_concrete", "cyan_glazed_terracotta", "prismarine", "sculk_sensor", "warped_roots", "nether_sprouts", "twisting_vines", "prismarine_slab", "prismarine_stairs", "prismarine_wall", "calibrated_sculk_sensor", "warped_fungus", "cyan_shulker_box", "cyan_stained_glass", "cyan_concrete_powder", "cyan_candle"]⟩,
  ⟨"COLOR_PURPLE", 127, 63, 178, false, ["purple_wool", "purple_carpet", "purple_concrete", "purple_glazed_terracotta", "mycelium", "chorus_plant", "chorus_flower", "budding_amethyst", "amethyst_block", "shulker_box", "bubble_coral_block", "purple_shulker_box", "purple_stained_glass", "purple_concrete_powder", "purple_candle"]⟩,
  ⟨"COLOR_BLUE", 51, 76, 178, false, ["blue_wool", "blue_carpet", "blue_concrete", "blue_glazed_terracotta", "tube_coral_block", "blue_shulker_box", "blue_stained_glass", "blue_concrete_powder", "blue_candle"]⟩,
  ⟨"COLOR_BROWN", 102, 76, 51, false, ["dark_oak_planks", "dark_oak_slab", "dark_oak_stairs", "dark_oak_log", "dark_oak_wood", "spruce_log", "soul_sand", "soul_soil", "brown_wool", "brown_carpet", "brown_concrete", "brown_glazed_terracotta", "brown_mushroom", "command_block", "dark_oak_stripped_log", "dark_oak_stripped_wood", "dark_oak_sign", "dark_oak_pressure_plate", "dark_oak_trapdoor", "dark_oak_fence_gate", "dark_oak_fence", "dark_oak_door", "brown_shulker_box", "brown_stained_glass", "brown_concrete_powder", "brown_candle", "leaf_litter"]⟩,
  ⟨"COLOR_GREEN", 102, 127, 51, false, ["green_wool", "green_carpet", "green_concrete", "green_glazed_terracotta", "end_portal_frame", "moss_block", "moss_carpet", "dried_kelp_block", "sea_pickle", "green_shulker_box", "green_stained_glass", "green_concrete_powder", "green_candle"]⟩,
  ⟨"COLOR_RED", 153, 51, 51, false, ["red_wool", "red_carpet", "red_concrete", "red_glazed_terracotta", "bricks", "brick_slab", "brick_stairs", "brick_wall", "nether_wart_block", "nether_wart", "enchanting_table", "red_mushroom_block", "red_mushroom", "shroomlight", "mangrove_planks", "mangrove_log", "sniffer_egg", "mangrove_slab", "mangrove_stairs", "mangrove_fence", "mangrove_fence_gate", "mangrove_door", "mangrove_trapdoor", "mangrove_sign", "mangrove_pressure_plate", "mangrove_stripped_log", "mangrove_wood", "mangrove_stripped_wood", "red_shulker_box", "red_stained_glass", "red_concrete_powder", "red_candle", "fire_coral_block"]⟩,
  ⟨"COLOR_BLACK", 25, 25, 25, false, ["black_wool", "black_carpet", "black_concrete", "black_glazed_terracotta", "obsidian", "coal_block", "dragon_egg", "blackstone", "polished_blackstone", "polished_blackstone_bricks", "netherite_block", "ancient_debris", "crying_obsidian", "respawn_anchor", "sculk", "sculk_catalyst", "sculk_shrieker", "sculk_vein", "basalt", "polished_basalt", "smooth_basalt", "black_shulker_box", "black_stained_glass", "black_concrete_powder", "black_candle"]⟩,
  ⟨"GOLD", 250, 238, 77, false, ["gold_block", "light_weighted_pressure_plate", "bell", "raw_gold_block"]⟩,
  ⟨"DIAMOND", 92, 219, 213, false, ["diamond_block", "prismarine_bricks", "dark_prismarine", "conduit", "beacon"]⟩,
  ⟨"LAPIS", 74, 128, 255, false, ["lapis_block"]⟩,
  ⟨"EMERALD", 0, 217, 58, false, ["emerald_block"]⟩,
  ⟨"PODZOL", 129, 86, 49, false, ["podzol", "spruce_planks", "spruce_slab", "spruce_stairs", "spruce_log", "spruce_wood", "spruce_fence", "spruce_fence_gate", "spruce_door", "spruce_trapdoor", "spruce_pressure_plate", "spruce_sign", "oak_log", "jungle_log", "campfire", "mangrove_roots", "muddy_mangrove_roots", "spruce_stripped_log", "spruce_stripped_wood", "soul_campfire"]⟩,
  ⟨"NETHER", 112, 2, 0, false, ["netherrack", "nether_bricks", "nether_brick_slab", "nether_brick_stairs", "nether_brick_fence", "nether_brick_wall", "red_nether_bricks", "nether_gold_ore", "nether_quartz_ore", "magma_block", "crimson_roots", "crimson_fungus", "weeping_vines", "chiseled_nether_bricks", "cracked_nether_bricks", "red_nether_brick_slab", "red_nether_brick_stairs", "red_nether_brick_wall"]⟩,
  ⟨"TERRACOTTA_WHITE", 209, 177, 161, false, ["white_terracotta", "calcite", "cherry_planks", "cherry_slab", "cherry_stairs", "cherry_fence", "cherry_fence_gate", "cherry_door", "cherry_trapdoor", "cherry_log", "cherry_sign", "cherry_pressure_plate"]⟩,
  ⟨"TERRACOTTA_ORANGE", 159, 82, 36, false, ["orange_terracotta", "redstone_lamp", "resin_block", "resin_bricks", "resin_brick_slab", "resin_brick_stairs", "resin_brick_wall", "resin_clump[south=true]"]⟩,
  ⟨"TERRACOTTA_MAGENTA", 149, 87, 108, false, ["magenta_terracotta"]⟩,
  ⟨"TERRACOTTA_LIGHT_BLUE", 112, 108, 138, false, ["light_blue_terracotta"]⟩,
  ⟨"TERRACOTTA_YELLOW", 186, 133, 36, false, ["yellow_terracotta"]⟩,
  ⟨"TERRACOTTA_LIGHT_GREEN", 103, 117, 53, false, ["lime_terracotta"]⟩,
  ⟨"TERRACOTTA_PINK", 160, 77, 78, false, ["pink_terracotta", "cherry_wood"]⟩,
  ⟨"TERRACOTTA_GRAY", 57, 41, 35, false, ["gray_terracotta", "tuff", "tuff_bricks", "polished_tuff", "tuff_slab", "tuff_brick_slab", "tuff_stairs", "tuff_brick_stairs", "chiseled_tuff", "chiseled_tuff_bricks", "cherry_log", "tuff_wall", "tuff_brick_wall", "polished_tuff_slab", "polished_tuff_stairs", "polished_tuff_wall"]⟩,
  ⟨"TERRACOTTA_LIGHT_GRAY", 135, 107, 98, false, ["light_gray_terracotta", "exposed_copper", "waxed_exposed_copper", "exposed_cut_copper", "mud_bricks", "mud_brick_slab", "mud_brick_stairs", "mud_brick_wall", "exposed_copper_trapdoor", "exposed_cut_copper_slab", "exposed_cut_copper_stairs", "waxed_exposed_cut_copper", "waxed_exposed_cut_copper_slab", "waxed_exposed_cut_copper_stairs"]⟩,
  ⟨"TERRACOTTA_CYAN", 87, 92, 92, false, ["cyan_terracotta", "mud"]⟩,
  ⟨"TERRACOTTA_PURPLE", 122, 73, 88, false, ["purple_terracotta"]⟩,
  ⟨"TERRACOTTA_BLUE", 76, 62, 92, false, ["blue_terracotta"]⟩,
  ⟨"TERRACOTTA_BROWN", 76, 50, 35, false, ["brown_terracotta", "dripstone_block", "pointed_dripstone"]⟩,
  ⟨"TERRACOTTA_GREEN", 76, 82, 42, false, ["green_terracotta"]⟩,
  ⟨"TERRACOTTA_RED", 142, 60, 46, false, ["red_terracotta", "decorated_pot"]⟩,
  ⟨"TERRACOTTA_BLACK", 37, 22, 16, false, ["black_terracotta"]⟩,
  ⟨"CRIMSON_NYLIUM", 189, 48, 49, false, ["crimson_nylium"]⟩,
  ⟨"CRIMSON_STEM", 148, 63, 97, false, ["crimson_planks", "crimson_stem", "stripped_crimson_stem", "crimson_slab", "crimson_stairs", "crimson_fence", "crimson_fence_gate", "crimson_door", "crimson_trapdoor", "crimson_sign", "crimson_pressure_plate"]⟩,
  ⟨"CRIMSON_HYPHAE", 92, 25, 29, false, ["crimson_hyphae", "stripped_crimson_hyphae"]⟩,
  ⟨"WARPED_NYLIUM", 22, 126, 134, false, ["warped_nylium", "oxidized_copper", "waxed_oxidized_copper", "oxidized_cut_copper", "oxidized_copper_trapdoor", "oxidized_cut_copper_slab", "oxidized_cut_copper_stairs", "waxed_oxidized_cut_copper", "waxed_oxidized_cut_copper_slab", "waxed_oxidized_cut_copper_stairs"]⟩,
  ⟨"WARPED_STEM", 58, 142, 140, false, ["warped_planks", "warped_stem", "stripped_warped_stem", "warped_slab", "warped_stairs", "warped_fence", "warped_fence_gate", "warped_door", "warped_trapdoor", "warped_sign", "warped_pressure_plate", "weathered_copper", "waxed_weathered_copper", "weathered_cut_copper", "weathered_cut_copper_slab", "weathered_cut_copper_stairs", "waxed_weathered_cut_copper", "waxed_weathered_cut_copper_slab", "waxed_weathered_cut_copper_stairs"]⟩,
  ⟨"WARPED_HYPHAE", 86, 44, 62, false, ["warped_hyphae", "stripped_warped_hyphae"]⟩,
  ⟨"WARPED_WART_BLOCK", 20, 180, 133, false, ["warped_wart_block"]⟩,
  ⟨"DEEPSLATE", 100, 100, 100, false, ["deepslate", "cobbled_deepslate", "deepslate_bricks", "deepslate_tiles", "polished_deepslate", "chiseled_deepslate", "cobbled_deepslate_slab", "deepslate_brick_slab", "deepslate_tile_slab", "reinforced_deepslate", "cobbled_deepslate_stairs", "cobbled_deepslate_wall", "deepslate_brick_stairs", "deepslate_brick_wall", "deepslate_tile_stairs", "deepslate_tile_wall", "cracked_deepslate_bricks", "cracked_deepslate_tiles", "deepslate_gold_ore", "deepslate_iron_ore", "deepslate_coal_ore", "deepslate_lapis_ore", "deepslate_diamond_ore", "deepslate_redstone_ore", "deepslate_emerald_ore", "deepslate_copper_ore"]⟩,
  ⟨"RAW_IRON", 216, 175, 147, false, ["raw_iron_block"]⟩,
  ⟨"GLOW_LICHEN", 127, 167, 150, false, ["glow_lichen[south=true]", "verdant_froglight"]⟩]

/-- Shade multipliers, index 0=dark, 1=flat, 2=light, 3=darkest. -/
def SHADE_MULTIPLIERS : List Nat := [180, 220, 255, 135]

/-- Blocks that need support below them (placement-condition set). -/
def FRAGILE_BLOCKS : List String := [
  "white_carpet", "orange_carpet", "magenta_carpet", "light_blue_carpet", "yellow_carpet",
  "lime_carpet", "pink_carpet", "gray_carpet", "light_gray_carpet", "cyan_carpet",
  "purple_carpet", "blue_carpet", "brown_carpet", "green_carpet", "red_carpet", "black_carpet",
  "moss_carpet", "pale_moss_carpet", "stone_pressure_plate", "oak_pressure_plate",
  "birch_pressure_plate", "spruce_pressure_plate", "jungle_pressure_plate",
  "acacia_pressure_plate", "dark_oak_pressure_plate", "crimson_pressure_plate",
  "warped_pressure_plate", "cherry_pressure_plate", "pale_oak_pressure_plate",
  "light_weighted_pressure_plate", "heavy_weighted_pressure_plate", "mangrove_pressure_plate",
  "oak_sign", "birch_sign", "spruce_sign", "jungle_sign", "acacia_sign", "dark_oak_sign",
  "crimson_sign", "warped_sign", "cherry_sign", "pale_oak_sign", "mangrove_sign", "oak_door",
  "birch_door", "spruce_door", "jungle_door", "acacia_door", "dark_oak_door", "crimson_door",
  "warped_door", "cherry_door", "pale_oak_door", "mangrove_door", "iron_door", "oak_trapdoor",
  "birch_trapdoor", "spruce_trapdoor", "jungle_trapdoor", "acacia_trapdoor",
  "dark_oak_trapdoor", "crimson_trapdoor", "warped_trapdoor", "cherry_trapdoor",
  "pale_oak_trapdoor", "mangrove_trapdoor", "iron_trapdoor", "candle", "white_candle",
  "orange_candle", "magenta_candle", "light_blue_candle", "yellow_candle", "lime_candle",
  "pink_candle", "gray_candle", "light_gray_candle", "cyan_candle", "purple_candle",
  "blue_candle", "brown_candle", "green_candle", "red_candle", "black_candle", "pink_petals",
  "fern", "short_grass", "tall_grass", "dead_bush", "sugar_cane", "cactus", "vines",
  "lily_pad", "crimson_roots", "warped_roots", "nether_sprouts", "twisting_vines",
  "weeping_vines", "crimson_fungus", "warped_fungus", "hanging_roots", "sea_pickle",
  "nether_wart", "bamboo_sapling", "brown_mushroom", "red_mushroom", "chorus_plant",
  "chorus_flower", "fire", "snow", "pointed_dripstone", "lantern", "bell", "turtle_egg",
  "leaf_litter", "open_eyeblossom", "closed_eyeblossom", "sculk_sensor",
  "calibrated_sculk_sensor", "sculk_vein", "scaffolding", "glow_lichen", "resin_clump"]

structure ColorMatch where
  baseIndex : Nat
  shade : Nat
deriving DecidableEq

def baseColorAt (i : Nat) : BaseColor := BASE_COLORS.getD i ⟨"", 0, 0, 0, false, []⟩

def shadeMulAt (s : Nat) : Nat := SHADE_MULTIPLIERS.getD s 0

/-- Math.floor(channel * multiplier / 255) on byte channels. -/
def shadedChannel (c m : Nat) : Nat := c * m / 255

/-- Shaded RGB triple of a palette color (getShadedRgb in the source). -/
def getShadedRgb (baseIndex shade : Nat) : Nat × Nat × Nat :=
  let c := baseColorAt baseIndex
  let m := shadeMulAt shade
  (shadedChannel c.r m, shadedChannel c.g m, shadedChannel c.b m)

/-- Read of an assoc list that returns the binding set last (JS Map.set
followed by Map.get where later set calls overwrite earlier ones). -/
def mapGet {κ α : Type} [DecidableEq κ] (l : List (κ × α)) (k : κ) : Option α :=
  l.foldl (fun acc e => if e.1 = k then some e.2 else acc) none

/-- JS whitespace trim (ASCII whitespace). -/
def isWsChar (c : Char) : Bool := c = ' ' || c = '\t' || c = '\n' || c = '\r'

def jsTrim (s : String) : String :=
  String.mk (((s.toList.dropWhile isWsChar).reverse.dropWhile isWsChar).reverse)

/-- ASCII lower-casing (the inputs compared after toLowerCase here are ASCII
block names). -/
def lowerChar (c : Char) : Char :=
  if 'A' ≤ c ∧ c ≤ 'Z' then Char.ofNat (c.toNat + 32) else c

def jsToLower (s : String) : String := String.mk (s.toList.map lowerChar)

/-- JS Array.join with a separator. -/
def joinWith (sep : String) (l : List String) : String :=
  match l with
  | [] => ""
  | a :: rest => rest.foldl (fun acc t => acc ++ sep ++ t) a

/-- Split a character list on a separator character (JS String.split with a
one-character separator). -/
def splitOnChar (sep : Char) (l : List Char) : List (List Char) :=
  l.foldr (fun c acc =>
    match acc with
    | [] => if c = sep then [[], []] else [[c]]
    | h :: t => if c = sep then [] :: h :: t else (c :: h) :: t) [[]]

/-- The reverse-lookup entries built by getColorLookup: for every palette
index 1..61 and shade 0..3, the shaded triple maps to (index, shade).
Entries are listed in insertion order; a later entry overwrites an earlier
one with the same key, as in the source Map. -/
def lookupEntries : List ((Nat × Nat × Nat) × ColorMatch) :=
  ((List.range' 1 61).map (fun i =>
    (List.range 4).map (fun s => (getShadedRgb i s, ColorMatch.mk i s)))).flatten

/-- The reverse color lookup (quantized shaded RGB → palette index, shade). -/
def getColorLookup (k : Nat × Nat × Nat) : Option ColorMatch := mapGet lookupEntries k

/-! ## Claim C1 — shaded RGB reconstruction vs the reverse lookup -/

set_option maxRecDepth 8000 in
/-- C1 (counterexample): the claim quantifies over palette indices 0 to 61,
but at index 0 (the NONE bucket) the shaded triple is (0,0,0), the reverse
lookup is only built for indices 1..61, and it holds no entry for (0,0,0):
feeding index 0's shaded triple back in yields no match at all. -/
theorem c1_index_zero_fails :
    getShadedRgb 0 1 = (0, 0, 0) ∧ getColorLookup (getShadedRgb 0 1) = none :=
  ⟨rfl, by decide⟩

set_option maxRecDepth 100000 in
set_option maxHeartbeats 1000000 in
/-- C1 (amended): for every palette index 1 to 61 and every shade level 0..3,
computing the shaded RGB triple and feeding it into the reverse lookup yields
back exactly that (index, shade) pair. -/
theorem c1_shaded_rgb_roundtrip :
    ∀ i < 62, 1 ≤ i → ∀ s < 4, getColorLookup (getShadedRgb i s) = some ⟨i, s⟩ := by
  decide

/-- C1 witness: the round-trip theorem instantiated at index 7 (PLANT), shade
3 (darkest). -/
theorem c1_shaded_rgb_roundtrip_witness :
    getColorLookup (getShadedRgb 7 3) = some ⟨7, 3⟩ :=
  c1_shaded_rgb_roundtrip 7 (by decide) (by decide) 3 (by decide)

/-! ## Image data and conversion options -/

/-- An RGBA pixel buffer: width, height, and the flat byte array (4 bytes per
pixel, row-major). -/
structure ImageData where
  width : Nat
  height : Nat
  data : Nat → Nat

/-- Alpha byte of pixel (x, y) on a 128-wide image, as indexed in the source:
data[(y * 128 + x) * 4 + 3]. -/
def alphaAt (img : ImageData) (x y : Nat) : Nat := img.data ((y * 128 + x) * 4 + 3)

/-- RGB bytes of pixel (x, y): data[idx], data[idx+1], data[idx+2]. -/
def rgbAt (img : ImageData) (x y : Nat) : Nat × Nat × Nat :=
  (img.data ((y * 128 + x) * 4),
   img.data ((y * 128 + x) * 4 + 1),
   img.data ((y * 128 + x) * 4 + 2))

structure CustomColor where
  r : Nat
  g : Nat
  b : Nat
  block : String
deriving DecidableEq

/-- The customColors lookup (Map keyed by the color triple; the binding set
last wins, matching Map.set in iteration order). -/
def customGet (ccs : List CustomColor) (k : Nat × Nat × Nat) : Option CustomColor :=
  ccs.foldl (fun acc cc => if (cc.r, cc.g, cc.b) = k then some cc else acc) none

inductive BuildMode
  | flat
  | staircase_valley
  | staircase_classic
  | staircase_northline
  | staircase_southline
  | staircase_cancer
  | suppress_checker
  | suppress_pairs
  | suppress_pairs_ew
  | suppress_dual_layer
deriving DecidableEq

inductive SupportMode
  | none
  | steps
  | all
  | fragile
  | water
deriving DecidableEq

structure ConversionOptions where
  blockMapping : Nat → Option String
  fillerBlock : String
  customColors : List CustomColor
  buildMode : BuildMode
  supportMode : SupportMode
  baseName : String
  layerGap : Option Int := Option.none

/-! ## validatePng -/

/-- Set-like insertion: add to the back unless already present (JS Set.add /
the explicit includes-then-push pattern). -/
def setAdd {α : Type} [DecidableEq α] (l : List α) (a : α) : List α :=
  if a ∈ l then l else l ++ [a]

structure ValidateScan where
  usedBaseColors : List Int
  invalidColors : List (Nat × Nat × Nat)
deriving DecidableEq

/-- One pixel of the validatePng scan. -/
def validateStep (img : ImageData) (ccs : List CustomColor) (st : ValidateScan)
    (p : Nat × Nat) : ValidateScan :=
  let x := p.1
  let y := p.2
  if alphaAt img x y = 0 then st
  else
    let k := rgbAt img x y
    match getColorLookup k with
    | some m => { st with usedBaseColors := setAdd st.usedBaseColors (Int.ofNat m.baseIndex) }
    | none =>
      if (customGet ccs k).isSome then
        { st with usedBaseColors := setAdd st.usedBaseColors (-1) }
      else
        { st with invalidColors :=
            if k ∈ st.invalidColors then st.invalidColors else st.invalidColors ++ [k] }

/-- Pixel coordinates (x, y) in scan order: y outer, x inner, both 0..127. -/
def pixelScanOrder : List (Nat × Nat) :=
  ((List.range 128).map (fun y => (List.range 128).map (fun x => (x, y)))).flatten

def validateScanResult (img : ImageData) (ccs : List CustomColor) : ValidateScan :=
  pixelScanOrder.foldl (validateStep img ccs) ⟨[], []⟩

/-- Display form of a color key, as interpolated into the error message. -/
def colorKeyString (k : Nat × Nat × Nat) : String :=
  toString k.1 ++ "," ++ toString k.2.1 ++ "," ++ toString k.2.2

/-- The unmatched-colors error message: total count of distinct offending
colors, first 10 shown, ellipsis when more than 10. -/
def invalidColorsMessage (l : List (Nat × Nat × Nat)) : String :=
  "Found " ++ toString l.length ++ " color" ++ (if l.length = 1 then "" else "s") ++
    " not in Minecraft map palette:\n\n" ++
    joinWith ", " ((l.take 10).map (fun c => "rgb(" ++ colorKeyString c ++ ")")) ++
    (if 10 < l.length then "..." else "")

structure ValidationResult where
  valid : Bool
  errors : List String
  usedBaseColors : List Int
deriving DecidableEq

/-- validatePng: size gate first (early return), then the pixel scan. -/
def validatePng (img : ImageData) (ccs : List CustomColor) : ValidationResult :=
  if img.width ≠ 128 ∨ img.height ≠ 128 then
    { valid := false,
      errors := ["Image must be 128×128 pixels (got " ++ toString img.width ++ "×" ++
        toString img.height ++ ")"],
      usedBaseColors := [] }
  else
    let scan := validateScanResult img ccs
    let errors := if 0 < scan.invalidColors.length then [invalidColorsMessage scan.invalidColors] else []
    { valid := errors.length == 0, errors := errors, usedBaseColors := scan.usedBaseColors }

/-! ## Water depth (claim C4) -/

/-- Water column depth from shade and checkerboard parity of (x + z). -/
def getWaterDepth (shade : Nat) (x z : Nat) : Nat :=
  if shade = 2 then 1
  else if shade = 1 then (if (x + z) % 2 = 0 then 5 else 3)
  else (if (x + z) % 2 = 0 then 10 else 7)

/-- C4: for all x, z in 0..127, light shade gives depth 1; flat shade gives 5
on even (x+z) parity, else 3; dark (0) and darkest (3) shades give 10 on even
parity, else 7. -/
theorem c4_water_depth (x z : Nat) (hx : x < 128) (hz : z < 128) :
    getWaterDepth 2 x z = 1 ∧
    getWaterDepth 1 x z = (if (x + z) % 2 = 0 then 5 else 3) ∧
    getWaterDepth 0 x z = (if (x + z) % 2 = 0 then 10 else 7) ∧
    getWaterDepth 3 x z = (if (x + z) % 2 = 0 then 10 else 7) := by
  refine ⟨rfl, ?_, ?_, ?_⟩ <;> simp [getWaterDepth]

/-- C4 witness: instantiated at (x, z) = (3, 4) (odd parity). -/
theorem c4_water_depth_witness :
    (3 : Nat) < 128 ∧ (4 : Nat) < 128 ∧
    (getWaterDepth 2 3 4 = 1 ∧
     getWaterDepth 1 3 4 = (if (3 + 4) % 2 = 0 then 5 else 3) ∧
     getWaterDepth 0 3 4 = (if (3 + 4) % 2 = 0 then 10 else 7) ∧
     getWaterDepth 3 3 4 = (if (3 + 4) % 2 = 0 then 10 else 7)) :=
  ⟨by decide, by decide, c4_water_depth 3 4 (by decide) (by decide)⟩

/-! ## Claim C3 — validatePng error handling -/

/-- Pixel (x, y) is opaque and matches neither the palette lookup nor a
custom color. -/
def offendingAt (img : ImageData) (ccs : List CustomColor) (x y : Nat) : Prop :=
  alphaAt img x y ≠ 0 ∧ getColorLookup (rgbAt img x y) = Option.none ∧
    customGet ccs (rgbAt img x y) = Option.none

instance (img : ImageData) (ccs : List CustomColor) (x y : Nat) :
    Decidable (offendingAt img ccs x y) := by
  unfold offendingAt; infer_instance

lemma validateStep_invalid_mem (img : ImageData) (ccs : List CustomColor)
    (st : ValidateScan) (p : Nat × Nat) (k : Nat × Nat × Nat) :
    k ∈ (validateStep img ccs st p).invalidColors ↔
      k ∈ st.invalidColors ∨ (offendingAt img ccs p.1 p.2 ∧ rgbAt img p.1 p.2 = k) := by
  by_cases ha : alphaAt img p.1 p.2 = 0
  · have hstep : validateStep img ccs st p = st := by
      unfold validateStep; simp [ha]
    rw [hstep]
    simp [offendingAt, ha]
  · cases hm : getColorLookup (rgbAt img p.1 p.2) with
    | some m =>
      have hstep : (validateStep img ccs st p).invalidColors = st.invalidColors := by
        unfold validateStep; simp [ha, hm]
      rw [hstep]; simp [offendingAt, hm]
    | none =>
      by_cases hc : (customGet ccs (rgbAt img p.1 p.2)).isSome
      · have hcs : customGet ccs (rgbAt img p.1 p.2) ≠ Option.none := by
          intro h; rw [h] at hc; simp at hc
        have hstep : (validateStep img ccs st p).invalidColors = st.invalidColors := by
          unfold validateStep; simp [ha, hm, hc]
        rw [hstep]; simp [offendingAt, hcs]
      · have hcn : customGet ccs (rgbAt img p.1 p.2) = Option.none := by
          cases h : customGet ccs (rgbAt img p.1 p.2) with
          | none => rfl
          | some c => rw [h] at hc; simp at hc
        have hoff : offendingAt img ccs p.1 p.2 := ⟨ha, hm, hcn⟩
        have hstep : (validateStep img ccs st p).invalidColors =
            (if rgbAt img p.1 p.2 ∈ st.invalidColors then st.invalidColors
             else st.invalidColors ++ [rgbAt img p.1 p.2]) := by
          unfold validateStep; simp [ha, hm, hc]
        rw [hstep]
        by_cases hmem : rgbAt img p.1 p.2 ∈ st.invalidColors
        · rw [if_pos hmem]
          constructor
          · exact Or.inl
          · rintro (h | ⟨_, rfl⟩)
            · exact h
            · exact hmem
        · rw [if_neg hmem]
          simp only [List.mem_append, List.mem_singleton]
          constructor
          · rintro (h | rfl)
            · exact Or.inl h
            · exact Or.inr ⟨hoff, rfl⟩
          · rintro (h | ⟨_, rfl⟩)
            · exact Or.inl h
            · exact Or.inr rfl

lemma validateStep_invalid_nodup (img : ImageData) (ccs : List CustomColor)
    (st : ValidateScan) (p : Nat × Nat) (h : st.invalidColors.Nodup) :
    (validateStep img ccs st p).invalidColors.Nodup := by
  unfold validateStep
  by_cases ha : alphaAt img p.1 p.2 = 0
  · simpa [ha]
  · simp only [ha, if_false]
    cases hm : getColorLookup (rgbAt img p.1 p.2) with
    | some m => simpa
    | none =>
      by_cases hc : (customGet ccs (rgbAt img p.1 p.2)).isSome
      · simpa [hc]
      · by_cases hk : rgbAt img p.1 p.2 ∈ st.invalidColors
        · simpa [hc, hk]
        · simp only [hc, hk, if_false, Bool.false_eq_true]
          simpa [List.nodup_append, hk] using h

lemma scanFold_invalid_mem (img : ImageData) (ccs : List CustomColor)
    (l : List (Nat × Nat)) (st : ValidateScan) (k : Nat × Nat × Nat) :
    k ∈ (l.foldl (validateStep img ccs) st).invalidColors ↔
      k ∈ st.invalidColors ∨ ∃ p ∈ l, offendingAt img ccs p.1 p.2 ∧ rgbAt img p.1 p.2 = k := by
  induction l generalizing st with
  | nil => simp
  | cons a l ih =>
    rw [List.foldl_cons, ih, validateStep_invalid_mem]
    constructor
    · rintro (⟨h | h⟩ | ⟨p, hp, h⟩)
      · exact Or.inl h
      · exact Or.inr ⟨a, List.mem_cons_self a l, h⟩
      · exact Or.inr ⟨p, List.mem_cons_of_mem a hp, h⟩
    · rintro (h | ⟨p, hp, h⟩)
      · exact Or.inl (Or.inl h)
      · rcases List.mem_cons.mp hp with rfl | hp
        · exact Or.inl (Or.inr h)
        · exact Or.inr ⟨p, hp, h⟩

lemma scanFold_invalid_nodup (img : ImageData) (ccs : List CustomColor)
    (l : List (Nat × Nat)) (st : ValidateScan) (h : st.invalidColors.Nodup) :
    (l.foldl (validateStep img ccs) st).invalidColors.Nodup := by
  induction l generalizing st with
  | nil => simpa
  | cons a l ih => exact ih _ (validateStep_invalid_nodup img ccs st a h)

lemma mem_pixelScanOrder (x y : Nat) :
    (x, y) ∈ pixelScanOrder ↔ x < 128 ∧ y < 128 := by
  unfold pixelScanOrder
  simp only [List.mem_flatten, List.mem_map, List.mem_range]
  constructor
  · rintro ⟨l, ⟨y', hy', rfl⟩, hm⟩
    rcases List.mem_map.mp hm with ⟨x', hx', he⟩
    cases he
    exact ⟨List.mem_range.mp hx', hy'⟩
  · rintro ⟨hx, hy⟩
    exact ⟨(List.range 128).map (fun x => (x, y)), ⟨y, hy, rfl⟩,
      List.mem_map.mpr ⟨x, List.mem_range.mpr hx, rfl⟩⟩

/-- C3: a wrong-sized image yields valid = false, a single error naming the
actual dimensions, and an empty usedBaseColors (no pixel classification); a
128×128 image with at least one opaque pixel matching neither the palette
lookup nor a custom color yields valid = false and a single error built from
the list of offending colors deduplicated by RGB key — exactly the colors of
offending pixels, with at most the first 10 shown and the total distinct
count reported. -/
theorem c3_validate_png (img : ImageData) (ccs : List CustomColor) :
    (img.width ≠ 128 ∨ img.height ≠ 128 →
      validatePng img ccs =
        { valid := false,
          errors := ["Image must be 128×128 pixels (got " ++ toString img.width ++ "×" ++
            toString img.height ++ ")"],
          usedBaseColors := [] }) ∧
    (img.width = 128 → img.height = 128 →
      (∃ x < 128, ∃ y < 128, offendingAt img ccs x y) →
      (validatePng img ccs).valid = false ∧
      (validateScanResult img ccs).invalidColors ≠ [] ∧
      (validateScanResult img ccs).invalidColors.Nodup ∧
      (∀ k, k ∈ (validateScanResult img ccs).invalidColors ↔
        ∃ x < 128, ∃ y < 128, offendingAt img ccs x y ∧ rgbAt img x y = k) ∧
      (validatePng img ccs).errors =
        ["Found " ++ toString (validateScanResult img ccs).invalidColors.length ++ " color" ++
          (if (validateScanResult img ccs).invalidColors.length = 1 then "" else "s") ++
          " not in Minecraft map palette:\n\n" ++
          joinWith ", " (((validateScanResult img ccs).invalidColors.take 10).map
            (fun c => "rgb(" ++ colorKeyString c ++ ")")) ++
          (if 10 < (validateScanResult img ccs).invalidColors.length then "..." else "")]) := by
  constructor
  · intro h
    unfold validatePng
    rw [if_pos h]
  · intro h1 h2 hex
    have hif : ¬(img.width ≠ 128 ∨ img.height ≠ 128) := by simp [h1, h2]
    obtain ⟨x, hx, y, hy, hoff⟩ := hex
    have hk : rgbAt img x y ∈ (validateScanResult img ccs).invalidColors := by
      unfold validateScanResult
      rw [scanFold_invalid_mem]
      exact Or.inr ⟨(x, y), (mem_pixelScanOrder x y).mpr ⟨hx, hy⟩, hoff, rfl⟩
    have hne : (validateScanResult img ccs).invalidColors ≠ [] :=
      List.ne_nil_of_mem hk
    have hlen : 0 < (validateScanResult img ccs).invalidColors.length :=
      List.length_pos.mpr hne
    have hred : validatePng img ccs =
        { valid := (([invalidColorsMessage (validateScanResult img ccs).invalidColors] :
              List String).length == 0),
          errors := [invalidColorsMessage (validateScanResult img ccs).invalidColors],
          usedBaseColors := (validateScanResult img ccs).usedBaseColors } := by
      unfold validatePng
      rw [if_neg hif]
      simp only [if_pos hlen]
    refine ⟨by rw [hred]; rfl, hne, ?_, ?_, by rw [hred]; rfl⟩
    · exact scanFold_invalid_nodup img ccs pixelScanOrder ⟨[], []⟩ List.nodup_nil
    · intro k
      unfold validateScanResult
      rw [scanFold_invalid_mem]
      constructor
      · rintro (h | ⟨p, hp, hpo, hpr⟩)
        · simp at h
        · rcases (mem_pixelScanOrder p.1 p.2).mp (by simpa using hp) with ⟨hpx, hpy⟩
          exact ⟨p.1, hpx, p.2, hpy, hpo, hpr⟩
      · rintro ⟨x', hx', y', hy', ho', hr'⟩
        exact Or.inr ⟨(x', y'), (mem_pixelScanOrder x' y').mpr ⟨hx', hy'⟩, ho', hr'⟩

/-- Concrete wrong-size image for the C3 witness. -/
def imgWrongSize : ImageData := ⟨64, 128, fun _ => 0⟩

/-- Concrete 128×128 image whose pixel (0, 0) is opaque with RGB (1, 2, 3),
a color outside the palette, and every other pixel transparent. -/
def imgOneBad : ImageData :=
  ⟨128, 128, fun i =>
    if i = 0 then 1 else if i = 1 then 2 else if i = 2 then 3 else
    if i = 3 then 255 else 0⟩

set_option maxRecDepth 8000 in
/-- C3 witness: the theorem applied to a 64×128 image and to a 128×128 image
with the single offending pixel (0,0) = rgb(1,2,3). -/
theorem c3_validate_png_witness :
    (validatePng imgWrongSize [] =
      { valid := false,
        errors := ["Image must be 128×128 pixels (got " ++ toString imgWrongSize.width ++ "×" ++
          toString imgWrongSize.height ++ ")"],
        usedBaseColors := [] }) ∧
    ((validatePng imgOneBad []).valid = false ∧
      (validateScanResult imgOneBad []).invalidColors ≠ [] ∧
      (validateScanResult imgOneBad []).invalidColors.Nodup ∧
      (∀ k, k ∈ (validateScanResult imgOneBad []).invalidColors ↔
        ∃ x < 128, ∃ y < 128, offendingAt imgOneBad [] x y ∧ rgbAt imgOneBad x y = k) ∧
      (validatePng imgOneBad []).errors =
        ["Found " ++ toString (validateScanResult imgOneBad []).invalidColors.length ++ " color" ++
          (if (validateScanResult imgOneBad []).invalidColors.length = 1 then "" else "s") ++
          " not in Minecraft map palette:\n\n" ++
          joinWith ", " (((validateScanResult imgOneBad []).invalidColors.take 10).map
            (fun c => "rgb(" ++ colorKeyString c ++ ")")) ++
          (if 10 < (validateScanResult imgOneBad []).invalidColors.length then "..." else "")]) :=
  ⟨(c3_validate_png imgWrongSize []).1 (Or.inl (by decide)),
   (c3_validate_png imgOneBad []).2 rfl rfl
     ⟨0, by decide, 0, by decide, by decide⟩⟩

/-! ## Block name resolution -/

/-- Index of the first occurrence of a character (JS String.indexOf), as a
character index. -/
def charIndexOf (s : String) (c : Char) : Option Nat := s.toList.findIdx? (· = c)

/-- JS String.includes: substring occurrence test. -/
def jsIncludes (s pat : String) : Bool :=
  (List.range (s.toList.length + 1)).any (fun i => pat.toList.isPrefixOf (s.toList.drop i))

/-- JS object property assignment: overwrite in place if the key exists, else
append (property insertion order is preserved). -/
def recordSet (r : List (String × String)) (k v : String) : List (String × String) :=
  if r.any (fun p => p.1 = k) then r.map (fun p => if p.1 = k then (k, v) else p)
  else r ++ [(k, v)]

/-- Parse "key=value,key=value" into an ordered record; parts without "=" are
skipped; keys and values are trimmed. -/
def parseProps (propsStr : String) : List (String × String) :=
  ((splitOnChar ',' propsStr.toList).map String.mk).foldl (fun r part =>
    match charIndexOf part '=' with
    | Option.none => r
    | some eq =>
      recordSet r (jsTrim (String.mk (part.toList.take eq)))
        (jsTrim (String.mk (part.toList.drop (eq + 1))))) []

/-- Split "name[propsStr]" at the first bracket: block.slice(0, i) and
block.slice(i + 1, -1). -/
def splitBracket (block : String) : String × Option String :=
  match charIndexOf block '[' with
  | Option.none => (block, Option.none)
  | some i =>
    (String.mk (block.toList.take i),
     some (String.mk ((block.toList.drop (i + 1)).dropLast)))

/-- The name and property record computed by resolveBlockName before
assembly: bracket suffix parsed into properties, persistent=true added for
every name containing "leaves". -/
def resolveNameProps (block : String) : String × List (String × String) :=
  let nameProps := splitBracket block
  let props := match nameProps.2 with
    | some ps => parseProps ps
    | Option.none => []
  let props := if jsIncludes nameProps.1 "leaves" then recordSet props "persistent" "true"
    else props
  (nameProps.1, props)

/-- Assemble "minecraft:name" or "minecraft:name[k=v,...]". -/
def assembleBlockName (name : String) (props : List (String × String)) : String :=
  let fullName := "minecraft:" ++ name
  if 0 < props.length then
    fullName ++ "[" ++ joinWith "," (props.map (fun p => p.1 ++ "=" ++ p.2)) ++ "]"
  else fullName

/-- resolveBlockName from the source: namespace the name, parse properties,
add persistent=true for leaf blocks. -/
def resolveBlockName (block : String) : String :=
  assembleBlockName (resolveNameProps block).1 (resolveNameProps block).2

/-- parseBlockId from the binary tag writer. -/
structure ParsedBlock where
  name : String
  props : List (String × String)
deriving DecidableEq

def parseBlockId (id : String) : ParsedBlock :=
  match charIndexOf id '[' with
  | Option.none => ⟨id, []⟩
  | some i =>
    ⟨String.mk (id.toList.take i),
     parseProps (String.mk ((id.toList.drop (i + 1)).dropLast))⟩

def isFillerDisabled (fillerBlock : String) : Bool :=
  let lower := jsToLower (jsTrim fillerBlock)
  lower = "air" || lower = "none"

def isWaterBlock (blockName : String) : Bool :=
  blockName = "minecraft:water" || jsIncludes blockName "waterlogged=true"

/-- isFragileBlock: strip any property suffix, then membership in the
fragile set. -/
def isFragileBlock (blockId : String) : Bool :=
  let name := match charIndexOf blockId '[' with
    | some i => String.mk (blockId.toList.take i)
    | Option.none => blockId
  FRAGILE_BLOCKS.contains name

/-- blockName.replace of a leading "minecraft:" with nothing. -/
def stripMinecraft (s : String) : String :=
  if ("minecraft:".toList).isPrefixOf s.toList then String.mk (s.toList.drop 10) else s

/-! ## Staircase builder -/

structure BlockEntry where
  x : Int
  y : Int
  z : Int
  blockName : String
deriving DecidableEq

/-- Per-column carry state of the staircase scan. -/
structure ColState where
  y : Int
  transparent : Bool
  waterBottom : Option Int := Option.none
  waterTop : Option Int := Option.none
  waterDepth : Option Nat := Option.none
  waterBlockStart : Option Nat := Option.none
  waterChain : Option (List (Nat × Nat)) := Option.none
deriving DecidableEq

def initialColState : ColState := { y := 64, transparent := true }

/-- options.blockMapping[baseIndex] || baseColor.blocks[0], then the
"if (!block) continue" guard; missing entries and empty strings are falsy. -/
def resolveMappedBlock (mapping : Nat → Option String) (i : Nat) : Option String :=
  let fallback := (baseColorAt i).blocks.head?
  let chosen := match mapping i with
    | some s => if s = "" then fallback else some s
    | Option.none => fallback
  match chosen with
  | some s => if s = "" then Option.none else some s
  | Option.none => Option.none

/-- One pixel of the staircase scan: from the north neighbor's carry state,
produce the new column state and the block entries appended for this pixel
(globalLen is blocks.length on entry, recorded as a water pillar's start
index). -/
def staircaseStep (img : ImageData) (opts : ConversionOptions) (globalLen : Nat)
    (northState : ColState) (x z : Nat) : ColState × List BlockEntry :=
  if alphaAt img x z = 0 then
    ({ y := northState.y, transparent := true }, [])
  else
    let k := rgbAt img x z
    let fillerOn := !(isFillerDisabled opts.fillerBlock)
    match getColorLookup k, customGet opts.customColors k with
    | Option.none, Option.none => ({ y := northState.y, transparent := true }, [])
    | _, some cm =>
      let northY := northState.y
      let pre := if northState.transparent && fillerOn then
          [(⟨Int.ofNat x, northY, Int.ofNat z - 1, resolveBlockName opts.fillerBlock⟩ : BlockEntry)]
        else []
      ({ y := northY, transparent := false },
       pre ++ [⟨Int.ofNat x, northY, Int.ofNat z, resolveBlockName cm.block⟩])
    | some m, Option.none =>
      let baseColor := baseColorAt m.baseIndex
      match resolveMappedBlock opts.blockMapping m.baseIndex with
      | Option.none => ({ y := northState.y, transparent := true }, [])
      | some block =>
        let northY := northState.y
        if baseColor.isWater then
          let depth := getWaterDepth m.shade x z
          let bottom := match northState.waterBottom with
            | some wb => wb
            | Option.none => northY
          let top := bottom + Int.ofNat depth - 1
          let chain := match northState.waterChain with
            | some c => c ++ [(globalLen, depth)]
            | Option.none => [(globalLen, depth)]
          ({ y := top, transparent := false, waterBottom := some bottom, waterTop := some top,
             waterDepth := some depth, waterBlockStart := some globalLen,
             waterChain := some chain },
           (List.range depth).map (fun d =>
             (⟨Int.ofNat x, bottom + Int.ofNat d, Int.ofNat z, resolveBlockName block⟩ : BlockEntry)))
        else if m.shade = 1 then
          let pre := if northState.transparent && fillerOn then
              [(⟨Int.ofNat x, northY, Int.ofNat z - 1, resolveBlockName opts.fillerBlock⟩ : BlockEntry)]
            else []
          ({ y := northY, transparent := false },
           pre ++ [⟨Int.ofNat x, northY, Int.ofNat z, resolveBlockName block⟩])
        else if m.shade = 2 then
          ({ y := northY + 1, transparent := false },
           [⟨Int.ofNat x, northY + 1, Int.ofNat z, resolveBlockName block⟩])
        else
          let isDeepWater := match northState.waterBottom, northState.waterDepth with
            | some _, some d => decide (1 < d)
            | _, _ => false
          if isDeepWater then
            let darkY := northState.waterBottom.getD 0
            let pre := if northState.transparent && fillerOn then
                [(⟨Int.ofNat x, darkY + 1, Int.ofNat z - 1, resolveBlockName opts.fillerBlock⟩ : BlockEntry)]
              else []
            ({ y := darkY, transparent := false },
             pre ++ [⟨Int.ofNat x, darkY, Int.ofNat z, resolveBlockName block⟩])
          else
            let darkRef := match northState.waterBottom with
              | some wb => wb
              | Option.none => northY
            let pre := if northState.transparent && fillerOn then
                [(⟨Int.ofNat x, darkRef, Int.ofNat z - 1, resolveBlockName opts.fillerBlock⟩ : BlockEntry)]
              else []
            ({ y := darkRef - 1, transparent := false },
             pre ++ [⟨Int.ofNat x, darkRef - 1, Int.ofNat z, resolveBlockName block⟩])

/-- One row of the staircase scan: the 128 pixels of row z, reading the
previous row's column states from st. -/
def staircaseRowFold (img : ImageData) (opts : ConversionOptions)
    (st : List BlockEntry × List ColState) (z : Nat) : List BlockEntry × List ColState :=
  (List.range 128).foldl (fun (acc : List BlockEntry × List ColState) (x : Nat) =>
    let northState := st.2.getD x initialColState
    let step := staircaseStep img opts acc.1.length northState x z
    (acc.1 ++ step.2, acc.2 ++ [step.1])) (st.1, [])

/-- The scan state after the first n rows. -/
def staircaseRowState (img : ImageData) (opts : ConversionOptions) (n : Nat) :
    List BlockEntry × List ColState :=
  (List.range n).foldl (staircaseRowFold img opts) ([], List.replicate 128 initialColState)

/-- The full staircase scan: rows north to south, carrying the previous row's
column states. -/
def buildStaircaseBlocks (img : ImageData) (opts : ConversionOptions) : List BlockEntry :=
  (staircaseRowState img opts 128).1

/-! ## Staircase variants -/

/-- Stable insertion of an element after all kept-before elements (le b a
means b stays before a). -/
def sortedInsert {α : Type} (le : α → α → Bool) (a : α) : List α → List α
  | [] => [a]
  | b :: l => if le b a then b :: sortedInsert le a l else a :: b :: l

/-- Stable ascending sort (the semantics of the JS stable Array.sort with a
subtraction comparator). -/
def stableSortBy {α : Type} (le : α → α → Bool) (l : List α) : List α :=
  l.foldl (fun acc a => sortedInsert le a acc) []

/-- Keys of a JS Map built by insertion, in insertion order. -/
def insertionKeys {α β : Type} [DecidableEq α] (l : List (α × β)) : List α :=
  l.foldl (fun acc p => setAdd acc p.1) []

/-- Assoc update with JS Map.set semantics (overwrite keeps position). -/
def amapSet (l : List (Int × Int)) (k : Int) (v : Int) : List (Int × Int) :=
  if l.any (fun p => p.1 = k) then l.map (fun p => if p.1 = k then (k, v) else p)
  else l ++ [(k, v)]

def amapGet (l : List (Int × Int)) (k : Int) : Option Int :=
  (l.find? (fun p => p.1 = k)).map (fun p => p.2)

/-- The distinct x keys of the per-column grouping Map, in first-appearance
order (JS Map iteration order). -/
def columnXs (blocks : List BlockEntry) : List Int :=
  blocks.foldl (fun acc b => setAdd acc b.x) []

/-- All blocks of one x column, in list order. -/
def columnBlocks (blocks : List BlockEntry) (x : Int) : List BlockEntry :=
  blocks.filter (fun b => b.x = x)

/-- All blocks of one z row within a column, in list order. -/
def rowBlocks (col : List BlockEntry) (z : Int) : List BlockEntry :=
  col.filter (fun b => b.z = z)

/-- The distinct z keys of a column's z grouping, sorted ascending. -/
def zKeysSorted (col : List BlockEntry) : List Int :=
  stableSortBy (fun a b => decide (a ≤ b)) (col.foldl (fun acc b => setAdd acc b.z) [])

/-- Math.min over the y values of a non-empty list (Infinity start). -/
def rowMinY (l : List BlockEntry) : Option Int := (l.map (fun b => b.y)).min?

/-- Math.max over the y values of a non-empty list (-Infinity start). -/
def rowMaxY (l : List BlockEntry) : Option Int := (l.map (fun b => b.y)).max?

/-- staircase_classic: each column is shifted so its minimum y is 0. -/
def applyClassic (blocks : List BlockEntry) : List BlockEntry :=
  blocks.map (fun b =>
    match rowMinY (columnBlocks blocks b.x) with
    | some m => { b with y := b.y - m }
    | Option.none => b)

/-- staircase_southline: the y of the first block met at the column's
maximal z (the strict-greater scan) becomes the column's zero. -/
def southlineY (col : List BlockEntry) : Int :=
  (col.foldl (fun (acc : Option (Int × Int)) b =>
    match acc with
    | Option.none => some (b.z, b.y)
    | some (mz, sy) => if mz < b.z then some (b.z, b.y) else some (mz, sy))
    Option.none).elim 0 (fun p => p.2)

def applySouthline (blocks : List BlockEntry) : List BlockEntry :=
  blocks.map (fun b => { b with y := b.y - southlineY (columnBlocks blocks b.x) })

/-- Shade and liquidity of a source pixel as read by the valley and cancer
passes (palette match first, then custom colors as flat non-liquid); z
outside the image rows yields nothing. -/
def variantPixelInfo (img : ImageData) (opts : ConversionOptions) (x : Nat) (z : Int) :
    Option (Nat × Bool) :=
  if 0 ≤ z ∧ z < 128 then
    let zn := z.toNat
    if alphaAt img x zn = 0 then Option.none
    else
      let k := rgbAt img x zn
      match getColorLookup k, customGet opts.customColors k with
      | some m, _ => some (m.shade, (baseColorAt m.baseIndex).isWater)
      | Option.none, some _ => some (1, false)
      | Option.none, Option.none => Option.none
  else Option.none

/-- A valley segment: its z rows (northmost first), the shared top y, and the
depth of an attached water pillar if one was absorbed. -/
structure ValleySegment where
  zList : List Int
  topY : Int
  waterDepth : Option Int

/-- Maximal runs of consecutive z rows sharing the original top y (the
nested i/j scan of the valley pass over non-water primary rows). -/
structure RunState where
  groups : List (List Int)
  run : List Int
  runY : Int
  prev : Int

def valleyGroups (origMaxY : Int → Int) (l : List Int) : List (List Int) :=
  let st := l.foldl (fun (acc : RunState) w =>
    match acc.run with
    | [] => ⟨acc.groups, [w], origMaxY w, w⟩
    | run =>
      if w = acc.prev + 1 ∧ origMaxY w = acc.runY then ⟨acc.groups, w :: run, acc.runY, w⟩
      else ⟨acc.groups ++ [run.reverse], [w], origMaxY w, w⟩) ⟨[], [], 0, 0⟩
  match st.run with
  | [] => st.groups
  | run => st.groups ++ [run.reverse]

structure ValleyState where
  curMax : List (Int × Int)
  delta : List (Int × Int)
  fillers : List BlockEntry

/-- Generic delta application of one valley segment: shift the segment's rows
and update the tracked current-max and applied-delta maps. -/
def valleyApplyDelta (zList : List Int) (delta : Int) (st : ValleyState) : ValleyState :=
  { st with
    curMax := zList.foldl (fun m z => amapSet m z ((amapGet m z).getD 0 + delta)) st.curMax,
    delta := zList.foldl (fun m z => amapSet m z ((amapGet m z).getD 0 + delta)) st.delta }

/-- Processing of one valley segment: south target, north shade constraint,
water-bottom floor, and the dark/medium-shaded water pillar corrections. -/
def valleyProcessSeg (info : Int → Option (Nat × Bool)) (waterZ : Int → Bool)
    (fillerOn : Bool) (fillerName : String) (x : Int)
    (st : ValleyState) (seg : ValleySegment) : ValleyState :=
  let southZ := (seg.zList.getLast?.getD 0) + 1
  let target0 : Int :=
    match info southZ with
    | Option.none => 0
    | some si =>
      if si.2 ∨ si.1 = 2 then 0
      else match amapGet st.curMax southZ with
        | some sy => sy + 1
        | Option.none => 0
  let target1 :=
    match seg.zList.find? (fun z => ¬ waterZ z) with
    | Option.none => target0
    | some fz =>
      let northOfSegZ := fz - 1
      match info fz, seg.zList.contains northOfSegZ, amapGet st.curMax northOfSegZ with
      | some si, false, some northY =>
        if si.1 = 2 then max target0 (northY + 1)
        else if si.1 = 1 then max target0 northY
        else target0
      | _, _, _ => target0
  let target2 :=
    match seg.waterDepth with
    | some wd =>
      if 1 < wd ∧ target1 - (wd - 1) < 0 then target1 + -(target1 - (wd - 1)) else target1
    | Option.none => target1
  let waterPillarZ := match seg.waterDepth with
    | some _ => seg.zList.head?
    | Option.none => (Option.none : Option Int)
  let waterShade := match waterPillarZ with
    | some wz => info wz
    | Option.none => Option.none
  let isDarkMediumWater := match waterShade with
    | some ws => ws.1 == 0 || ws.1 == 1 || ws.1 == 3
    | Option.none => false
  let generic := fun (target : Int) =>
    let d := target - seg.topY
    if d ≠ 0 then valleyApplyDelta seg.zList d st else st
  if isDarkMediumWater && decide (1 < seg.waterDepth.getD 0) then
    let wd := seg.waterDepth.getD 0
    let waterBottomAfter := target2 - (wd - 1)
    if seg.zList.length = 1 then
      let target3 :=
        match info southZ with
        | some ss =>
          if (ss.1 = 0 ∨ ss.1 = 3) ∧ waterBottomAfter ≠ 0 then
            match amapGet st.curMax southZ with
            | some sy => sy + (wd - 1)
            | Option.none => target2
          else target2
        | Option.none => target2
      generic target3
    else if waterBottomAfter ≠ 0 then
      match amapGet st.curMax southZ with
      | some sy =>
        let newTargetTopY := sy + (wd - 1)
        let d := newTargetTopY - seg.topY
        let st1 := valleyApplyDelta seg.zList d st
        let newFillers := (seg.zList.filter (fun z => ¬ waterPillarZ = some z)).map
          (fun z => (⟨x, sy, z, fillerName⟩ : BlockEntry))
        if fillerOn then { st1 with fillers := st1.fillers ++ newFillers }
        else st1
      | Option.none => generic target2
    else generic target2
  else generic target2

/-- The per-column valley pass: returns the per-z y shift for the column's
original blocks and the filler entries pushed by the multi-row water
correction. -/
def valleyColumn (img : ImageData) (opts : ConversionOptions) (blocks : List BlockEntry)
    (x : Int) : (Int → Int) × List BlockEntry :=
  let col := columnBlocks blocks x
  let info := variantPixelInfo img opts x.toNat
  let zValues := zKeysSorted col
  let primaryZ := zValues.filter (fun z => (info z).isSome)
  let waterZ := fun z => primaryZ.contains z && ((info z).getD (0, false)).2
  let origMaxY := fun z => (rowMaxY (rowBlocks col z)).getD 0
  let origMinY := fun z => (rowMinY (rowBlocks col z)).getD 0
  let nonWaterPrimary := primaryZ.filter (fun z => ¬ waterZ z = true)
  let groups := valleyGroups origMaxY nonWaterPrimary
  let segsAttached := groups.map (fun g =>
    let y := origMaxY (g.headD 0)
    let northZ := (g.headD 0) - 1
    if waterZ northZ ∧ origMaxY northZ = y then
      (⟨northZ :: g, y, some (origMaxY northZ - origMinY northZ + 1)⟩ : ValleySegment)
    else ⟨g, y, Option.none⟩)
  let attachedWater := segsAttached.foldl (fun acc s =>
    match s.waterDepth with
    | some _ => acc ++ [s.zList.headD 0]
    | Option.none => acc) []
  let leftoverSegs := (primaryZ.filter (fun z => waterZ z ∧ ¬ attachedWater.contains z)).map
    (fun z => (⟨[z], origMaxY z, some (origMaxY z - origMinY z + 1)⟩ : ValleySegment))
  let segments := stableSortBy (fun a b => decide (a.topY ≤ b.topY)) (segsAttached ++ leftoverSegs)
  let fillerOn := ¬ isFillerDisabled opts.fillerBlock
  let st0 : ValleyState :=
    ⟨primaryZ.map (fun z => (z, origMaxY z)), primaryZ.map (fun z => (z, 0)), []⟩
  let stF := segments.foldl
    (valleyProcessSeg info waterZ fillerOn (resolveBlockName opts.fillerBlock) x) st0
  (fun z =>
    match amapGet stF.delta z with
    | some d => d
    | Option.none =>
      match amapGet stF.delta (z + 1) with
      | some d => d
      | Option.none => -(origMinY z),
   stF.fillers)

/-- staircase_valley: shift every original block by its column's per-z delta
and append the fillers pushed per column, in column iteration order. -/
def applyValley (img : ImageData) (opts : ConversionOptions) (blocks : List BlockEntry) :
    List BlockEntry :=
  blocks.map (fun b => { b with y := b.y + (valleyColumn img opts blocks b.x).1 b.z }) ++
    ((columnXs blocks).map (fun x => (valleyColumn img opts blocks x).2)).flatten

/-! ## Cancer variant -/

/-- One step of the mulberry32 generator: the updated float seed and the
32-bit output whose / 2^32 is the returned float. -/
def mulberryNext (seed : Int) : Int × Nat :=
  let seed := seed + 0x6d2b79f5
  let t0 := (seed.emod 4294967296).toNat
  let t1 := (Nat.xor t0 (t0 >>> 15)) * (t0 ||| 1) % 4294967296
  let u := (Nat.xor t1 (t1 >>> 7)) * (t1 ||| 61) % 4294967296
  let t2 := Nat.xor t1 ((t1 + u) % 4294967296)
  (seed, Nat.xor t2 (t2 >>> 14))

/-- Math.floor(rand() * k) for the 32-bit output r (exact for the small k
used here). -/
def randFloor (r k : Nat) : Nat := r * k / 4294967296

structure CancerScan where
  seed : Int
  lastY : Int
  tops : List (Int × Int)

/-- One primary row of the cancer scan: water keeps its depth at a random
top, light goes 1 + rand(5) above, flat stays, dark drops 1 + rand(5). -/
def cancerScanStep (info : Int → Option (Nat × Bool)) (origMaxY origMinY : Int → Option Int)
    (st : CancerScan) (z : Int) : CancerScan :=
  match info z with
  | Option.none => st
  | some i =>
    if i.2 then
      let depth := (origMaxY z).getD 0 - (origMinY z).getD 0 + 1
      let next := mulberryNext st.seed
      let waterTop := st.lastY + Int.ofNat (randFloor next.2 4)
      let waterBottom := waterTop - depth + 1
      let finalTop := if waterBottom < 0 then waterTop + -waterBottom else waterTop
      ⟨next.1, finalTop, st.tops ++ [(z, finalTop)]⟩
    else if i.1 = 2 then
      let next := mulberryNext st.seed
      let t := st.lastY + 1 + Int.ofNat (randFloor next.2 5)
      ⟨next.1, t, st.tops ++ [(z, t)]⟩
    else if i.1 = 1 then
      ⟨st.seed, st.lastY, st.tops ++ [(z, st.lastY)]⟩
    else
      let next := mulberryNext st.seed
      let t := st.lastY - (1 + Int.ofNat (randFloor next.2 5))
      ⟨next.1, t, st.tops ++ [(z, t)]⟩

/-- The per-column cancer pass: per-z delta applied to the column's blocks.
The source computes the shrink factor 128 / span in double precision; it is
modelled here as exact rational rounding (round half toward plus infinity,
Math.round). -/
def cancerColumn (img : ImageData) (opts : ConversionOptions) (blocks : List BlockEntry)
    (x : Int) : Int → Int :=
  let col := columnBlocks blocks x
  let info := variantPixelInfo img opts x.toNat
  let primaryZs := (List.range 128).filterMap (fun z =>
    if (info (Int.ofNat z)).isSome then some (Int.ofNat z) else Option.none)
  if primaryZs.isEmpty then fun _ => 0
  else
    let origMaxY := fun z => rowMaxY (rowBlocks col z)
    let origMinY := fun z => rowMinY (rowBlocks col z)
    let seed0 : Int := x * 7919 + 42
    let first := mulberryNext seed0
    let lastY0 : Int := Int.ofNat (randFloor first.2 64) + 32
    let scan := primaryZs.foldl (cancerScanStep info origMaxY origMinY) ⟨first.1, lastY0, []⟩
    let yVals := scan.tops.map (fun p => p.2)
    let minY := yVals.min?.getD 0
    let maxY := yVals.max?.getD 0
    let span := maxY - minY
    let normalized := fun (y : Int) =>
      if 128 < span then
        Int.ofNat (((y - minY).toNat * 128 * 2 + span.toNat) / (2 * span.toNat))
      else y - minY
    let deltaApplied := primaryZs.foldl (fun m z =>
      match origMaxY z, amapGet scan.tops z with
      | some origTop, some newTop => amapSet m z (normalized newTop - origTop)
      | _, _ => m) []
    fun z =>
      if (info z).isSome then (amapGet deltaApplied z).getD 0
      else (amapGet deltaApplied (z + 1)).getD 0

/-- staircase_cancer: every block shifted by its column's per-z delta. -/
def applyCancerMode (blocks : List BlockEntry) (img : ImageData)
    (opts : ConversionOptions) : List BlockEntry :=
  blocks.map (fun b => { b with y := b.y + cancerColumn img opts blocks b.x b.z })

/-- applyStaircaseVariant: flat, northline and the suppress modes return the
list unchanged; classic, southline, valley and cancer rewrite y per column. -/
def applyStaircaseVariant (blocks : List BlockEntry) (mode : BuildMode)
    (img : ImageData) (opts : ConversionOptions) : List BlockEntry :=
  match mode with
  | BuildMode.staircase_northline => blocks
  | BuildMode.flat => blocks
  | BuildMode.suppress_checker => blocks
  | BuildMode.suppress_pairs => blocks
  | BuildMode.suppress_pairs_ew => blocks
  | BuildMode.suppress_dual_layer => blocks
  | BuildMode.staircase_cancer => applyCancerMode blocks img opts
  | BuildMode.staircase_classic => applyClassic blocks
  | BuildMode.staircase_southline => applySouthline blocks
  | BuildMode.staircase_valley => applyValley img opts blocks

/-! ## Support inserters -/

def posKey (b : BlockEntry) : Int × Int × Int := (b.x, b.y, b.z)

/-- Assoc update with JS Map.set semantics, generic keys. -/
def amapSetG {κ : Type} [DecidableEq κ] (l : List (κ × Int)) (k : κ) (v : Int) :
    List (κ × Int) :=
  if l.any (fun p => p.1 = k) then l.map (fun p => if p.1 = k then (k, v) else p)
  else l ++ [(k, v)]

/-- Top y per (x, z) column (the topY map of the steps mode). -/
def topYMap (blocks : List BlockEntry) : List ((Int × Int) × Int) :=
  blocks.foldl (fun m b =>
    match mapGet m (b.x, b.z) with
    | some cur => if cur < b.y then amapSetG m (b.x, b.z) b.y else m
    | Option.none => amapSetG m (b.x, b.z) b.y) []

/-- steps support: filler beneath a column top strictly higher than the top
of its north or south neighbor column, unless occupied. -/
def addStepSupport (blocks : List BlockEntry) (fillerBlock : String) : List BlockEntry :=
  let topY := topYMap blocks
  let occupied := blocks.map posKey
  let extra := topY.foldl (fun acc e =>
    let x := e.1.1
    let z := e.1.2
    let y := e.2
    let higherThanNorth := match mapGet topY (x, z - 1) with
      | some ny => decide (ny < y)
      | Option.none => false
    let higherThanSouth := match mapGet topY (x, z + 1) with
      | some sy => decide (sy < y)
      | Option.none => false
    if (higherThanNorth || higherThanSouth) && !(occupied.contains (x, y - 1, z)) then
      acc ++ [(⟨x, y - 1, z, resolveBlockName fillerBlock⟩ : BlockEntry)]
    else acc) []
  blocks ++ extra

/-- One block of the all-support pass: filler below it unless that cell is
already filled. -/
def allSupportStep (fillerBlock : String)
    (acc : List (Int × Int × Int) × List BlockEntry) (b : BlockEntry) :
    List (Int × Int × Int) × List BlockEntry :=
  let belowKey := (b.x, b.y - 1, b.z)
  if acc.1.contains belowKey then acc
  else (acc.1 ++ [belowKey],
        acc.2 ++ [(⟨b.x, b.y - 1, b.z, resolveBlockName fillerBlock⟩ : BlockEntry)])

/-- all support: filler beneath every block, tracking filled positions. -/
def addAllSupport (blocks : List BlockEntry) (fillerBlock : String) : List BlockEntry :=
  blocks ++ (blocks.foldl (allSupportStep fillerBlock) (blocks.map posKey, [])).2

/-- fragile support: as all, restricted to the fragile-block set. -/
def addFragileSupport (blocks : List BlockEntry) (fillerBlock : String) : List BlockEntry :=
  let st := blocks.foldl (fun (acc : List (Int × Int × Int) × List BlockEntry) b =>
    if isFragileBlock (stripMinecraft b.blockName) then
      let belowKey := (b.x, b.y - 1, b.z)
      if acc.1.contains belowKey then acc
      else (acc.1 ++ [belowKey],
            acc.2 ++ [(⟨b.x, b.y - 1, b.z, resolveBlockName fillerBlock⟩ : BlockEntry)])
    else acc)
    (blocks.map posKey, [])
  blocks ++ st.2

/-- water support: filler in the four horizontal neighbors and below every
liquid voxel, where currently empty. -/
def addWaterSupport (blocks : List BlockEntry) (fillerBlock : String) : List BlockEntry :=
  let occupied0 := blocks.map posKey
  let waterPositions := (blocks.filter (fun b => isWaterBlock b.blockName)).map posKey
  let fillerName := resolveBlockName fillerBlock
  let st := waterPositions.foldl
    (fun (acc : List (Int × Int × Int) × List (Int × Int × Int) × List BlockEntry) w =>
      let neighbors := [(w.1, w.2.1, w.2.2 - 1), (w.1, w.2.1, w.2.2 + 1),
                        (w.1 - 1, w.2.1, w.2.2), (w.1 + 1, w.2.1, w.2.2),
                        (w.1, w.2.1 - 1, w.2.2)]
      neighbors.foldl (fun acc n =>
        if ¬ acc.1.contains n ∧ ¬ acc.2.1.contains n then
          (acc.1 ++ [n], acc.2.1 ++ [n],
           acc.2.2 ++ [(⟨n.1, n.2.1, n.2.2, fillerName⟩ : BlockEntry)])
        else acc) acc)
    (occupied0, [], [])
  blocks ++ st.2.2

def applySupport (blocks : List BlockEntry) (opts : ConversionOptions) : List BlockEntry :=
  if isFillerDisabled opts.fillerBlock then blocks
  else match opts.supportMode with
    | SupportMode.steps => addStepSupport blocks opts.fillerBlock
    | SupportMode.all => addAllSupport blocks opts.fillerBlock
    | SupportMode.fragile => addFragileSupport blocks opts.fillerBlock
    | SupportMode.water => addWaterSupport blocks opts.fillerBlock
    | SupportMode.none => blocks

/-! ## Bounds normalizer -/

structure StructureSize where
  sizeX : Int
  sizeY : Int
  sizeZ : Int
deriving DecidableEq

/-- normalizeAndMeasure: y shifted so the minimum is 0, z shifted only when
the minimum was negative, and the bounding dimensions. -/
def normalizeAndMeasure (blocks : List BlockEntry) : List BlockEntry × StructureSize :=
  match blocks with
  | [] => ([], ⟨128, 1, 128⟩)
  | _ :: _ =>
    let minY := ((blocks.map (fun b => b.y)).min?).getD 0
    let maxY := ((blocks.map (fun b => b.y)).max?).getD 0
    let minZ := ((blocks.map (fun b => b.z)).min?).getD 0
    let maxZ := ((blocks.map (fun b => b.z)).max?).getD 0
    let out := blocks.map (fun b =>
      { b with y := b.y - minY, z := if minZ < 0 then b.z - minZ else b.z })
    let rawSizeZ := (if minZ < 0 then maxZ - minZ else maxZ) + 1
    let minSizeZ : Int := if minZ < 0 then 129 else 128
    (out, ⟨128, maxY - minY + 1, max rawSizeZ minSizeZ⟩)

/-! ## Binary tag writer -/

/-- UTF-8 encoding of one character. -/
def utf8EncodeChar (c : Char) : List Nat :=
  let n := c.toNat
  if n < 128 then [n]
  else if n < 2048 then [192 + n / 64, 128 + n % 64]
  else if n < 65536 then [224 + n / 4096, 128 + n / 64 % 64, 128 + n % 64]
  else [240 + n / 262144, 128 + n / 4096 % 64, 128 + n / 64 % 64, 128 + n % 64]

/-- TextEncoder: UTF-8 bytes of a string. -/
def utf8Bytes (s : String) : List Nat := (s.toList.map utf8EncodeChar).flatten

def writeShortBE (v : Nat) : List Nat := [(v >>> 8) % 256, v % 256]

/-- setInt32 big-endian (two's complement). -/
def writeIntBE (v : Int) : List Nat :=
  let u := (v.emod 4294967296).toNat
  [(u >>> 24) % 256, (u >>> 16) % 256, (u >>> 8) % 256, u % 256]

/-- Length-prefixed (16-bit, big-endian) UTF-8 string payload. -/
def stringPayload (s : String) : List Nat := writeShortBE (utf8Bytes s).length ++ utf8Bytes s

def tagHeader (type_ : Nat) (name : String) : List Nat := [type_ % 256] ++ stringPayload name

def beginCompound (name : String) : List Nat := tagHeader 10 name

def intTag (name : String) (v : Int) : List Nat := tagHeader 3 name ++ writeIntBE v

def stringTag (name v : String) : List Nat := tagHeader 8 name ++ stringPayload v

def beginList (name : String) (elemType count : Nat) : List Nat :=
  tagHeader 9 name ++ [elemType % 256] ++ writeIntBE (Int.ofNat count)

/-- One block of the palette fold of writeStructureNbt: a new identifier is
appended to the map with the next index and its parse to the palette. -/
def paletteStep (acc : List (String × Nat) × List ParsedBlock) (b : BlockEntry) :
    List (String × Nat) × List ParsedBlock :=
  if (mapGet acc.1 b.blockName).isSome then acc
  else (acc.1 ++ [(b.blockName, acc.2.length)], acc.2 ++ [parseBlockId b.blockName])

/-- The palette fold of writeStructureNbt: a map from block identifier to its
index and the parsed entries, in first-appearance order. -/
def buildPalette (blocks : List BlockEntry) : List (String × Nat) × List ParsedBlock :=
  blocks.foldl paletteStep ([], [])

/-- The structure NBT tree: version, size, palette (with Properties
compounds), per-voxel pos + state entries, empty entities list. -/
def writeStructureNbt (blocks : List BlockEntry) (sizeX sizeY sizeZ : Int) : List Nat :=
  let pm := (buildPalette blocks).1
  let palette := (buildPalette blocks).2
  beginCompound "" ++ intTag "DataVersion" 3837 ++
    beginList "size" 3 3 ++ writeIntBE sizeX ++ writeIntBE sizeY ++ writeIntBE sizeZ ++
    beginList "palette" 10 palette.length ++
    (palette.map (fun e =>
      stringTag "Name" e.name ++
      (if 0 < e.props.length then
        beginCompound "Properties" ++ (e.props.map (fun p => stringTag p.1 p.2)).flatten ++ [0]
       else []) ++ [0])).flatten ++
    beginList "blocks" 10 blocks.length ++
    (blocks.map (fun b =>
      beginList "pos" 3 3 ++ writeIntBE b.x ++ writeIntBE b.y ++ writeIntBE b.z ++
      intTag "state" (Int.ofNat ((mapGet pm b.blockName).getD 0)) ++ [0])).flatten ++
    beginList "entities" 0 0 ++ [0]

/-! ## ZIP container -/

def crc32Round (c : Nat) : Nat := Nat.xor (c >>> 1) (if c % 2 = 1 then 0xEDB88320 else 0)

def crc32Byte (c b : Nat) : Nat := (List.range 8).foldl (fun c _ => crc32Round c) (Nat.xor c b)

/-- CRC-32, polynomial 0xEDB88320, bit-serial (uint32 arithmetic). -/
def crc32 (data : List Nat) : Nat := Nat.xor (data.foldl crc32Byte 0xFFFFFFFF) 0xFFFFFFFF

def u16le (v : Nat) : List Nat := [v % 256, (v >>> 8) % 256]

def u32le (v : Nat) : List Nat := [v % 256, (v >>> 8) % 256, (v >>> 16) % 256, (v >>> 24) % 256]

structure ZipEntry where
  name : String
  data : List Nat
deriving DecidableEq

/-- Local file header + name + stored data for one entry. -/
def zipLocalChunk (e : ZipEntry) : List Nat :=
  u32le 0x04034B50 ++ u16le 20 ++ u16le 0 ++ u16le 0 ++ u16le 0 ++ u16le 0 ++
    u32le (crc32 e.data) ++ u32le e.data.length ++ u32le e.data.length ++
    u16le (utf8Bytes e.name).length ++ u16le 0 ++ utf8Bytes e.name ++ e.data

structure CdEntry where
  offset : Nat
  nameBytes : List Nat
  crc : Nat
  size : Nat
deriving DecidableEq

/-- Central directory record for one entry. -/
def zipCentralChunk (cd : CdEntry) : List Nat :=
  u32le 0x02014B50 ++ u16le 20 ++ u16le 20 ++ u16le 0 ++ u16le 0 ++ u16le 0 ++ u16le 0 ++
    u32le cd.crc ++ u32le cd.size ++ u32le cd.size ++ u16le cd.nameBytes.length ++
    u16le 0 ++ u16le 0 ++ u16le 0 ++ u16le 0 ++ u32le 0 ++ u32le cd.offset ++ cd.nameBytes

/-- The store-only ZIP container: local chunks, central directory, end
record. -/
def createZip (entries : List ZipEntry) : List Nat :=
  let st := entries.foldl (fun (acc : List Nat × List CdEntry) e =>
    (acc.1 ++ zipLocalChunk e,
     acc.2 ++ [⟨acc.1.length, utf8Bytes e.name, crc32 e.data, e.data.length⟩])) ([], [])
  let cdOffset := st.1.length
  let out := st.1 ++ (st.2.map zipCentralChunk).flatten
  let cdSize := out.length - cdOffset
  out ++ u32le 0x06054B50 ++ u16le 0 ++ u16le 0 ++ u16le st.2.length ++ u16le st.2.length ++
    u32le cdSize ++ u32le cdOffset ++ u16le 0

/-! ## Suppress builders -/

/-- Block choice shared by the suppress builders: custom color first, else
the mapped palette block, with falsy (missing or empty) treated as skip. -/
def suppressBlockChoice (opts : ConversionOptions) (m : Option ColorMatch)
    (cm : Option CustomColor) : Option String :=
  match cm with
  | some c => if c.block = "" then Option.none else some c.block
  | Option.none =>
    match m with
    | some mm => resolveMappedBlock opts.blockMapping mm.baseIndex
    | Option.none => Option.none

/-- Blocks emitted for one pixel of a suppress-pairs color row. -/
def pairsPixelBlocks (img : ImageData) (opts : ConversionOptions) (x z : Nat) :
    List BlockEntry :=
  if alphaAt img x z = 0 then []
  else
    let k := rgbAt img x z
    let m := getColorLookup k
    let cm := customGet opts.customColors k
    match m, cm with
    | Option.none, Option.none => []
    | _, _ =>
      match suppressBlockChoice opts m cm with
      | Option.none => []
      | some block =>
        let isW := match cm, m with
          | Option.none, some mm => (baseColorAt mm.baseIndex).isWater
          | _, _ => false
        if isW then
          (List.range (getWaterDepth ((m.getD ⟨0, 0⟩).shade) x z)).map (fun d =>
            (⟨Int.ofNat x, Int.ofNat d, Int.ofNat z, resolveBlockName block⟩ : BlockEntry))
        else
          let shade := match cm with
            | some _ => 1
            | Option.none => (m.getD ⟨0, 0⟩).shade
          [(⟨Int.ofNat x, 0, Int.ofNat z, resolveBlockName block⟩ : BlockEntry)] ++
            (if shade = 2 then []
             else if isFillerDisabled opts.fillerBlock then []
             else if shade = 1 then
               [(⟨Int.ofNat x, 0, Int.ofNat z - 1, resolveBlockName opts.fillerBlock⟩ : BlockEntry)]
             else
               [(⟨Int.ofNat x, 1, Int.ofNat z - 1, resolveBlockName opts.fillerBlock⟩ : BlockEntry)] ++
               (if opts.supportMode = SupportMode.steps ∨ opts.supportMode = SupportMode.all then
                 [(⟨Int.ofNat x, 0, Int.ofNat z - 1, resolveBlockName opts.fillerBlock⟩ : BlockEntry)]
                else []))

/-- One half-build of suppress_pairs: only rows with z % 2 = startRow, then
the support pass when supportMode is not none. -/
def pairsHalf (img : ImageData) (opts : ConversionOptions) (startRow : Nat) :
    List BlockEntry :=
  let base := ((List.range 128).map (fun z =>
    if z % 2 = startRow then
      ((List.range 128).map (fun x => pairsPixelBlocks img opts x z)).flatten
    else [])).flatten
  if opts.supportMode ≠ SupportMode.none then applySupport base opts else base

def buildSuppressPairsBlocks (img : ImageData) (opts : ConversionOptions) :
    List BlockEntry × List BlockEntry :=
  (pairsHalf img opts 0, pairsHalf img opts 1)

/-- Blocks emitted for one pixel of an east-west suppress step, with the
updated maxYUsed. -/
def ewPixelStep (img : ImageData) (opts : ConversionOptions) (baseY : Int) (x z : Nat)
    (maxYUsed : Int) : List BlockEntry × Int :=
  if alphaAt img x z = 0 then ([], maxYUsed)
  else
    let k := rgbAt img x z
    let m := getColorLookup k
    let cm := customGet opts.customColors k
    match m, cm with
    | Option.none, Option.none => ([], maxYUsed)
    | _, _ =>
      match suppressBlockChoice opts m cm with
      | Option.none => ([], maxYUsed)
      | some block =>
        let fillerOn := ¬ isFillerDisabled opts.fillerBlock
        let isW := match cm, m with
          | Option.none, some mm => (baseColorAt mm.baseIndex).isWater
          | _, _ => false
        if isW then
          let depth := getWaterDepth ((m.getD ⟨0, 0⟩).shade) x z
          ((List.range depth).map (fun d =>
            (⟨Int.ofNat x, baseY + Int.ofNat d, Int.ofNat z, resolveBlockName block⟩ : BlockEntry)),
           if maxYUsed < baseY + Int.ofNat depth - 1 then baseY + Int.ofNat depth - 1 else maxYUsed)
        else
          let needsSupport := fillerOn ∧ (opts.supportMode = SupportMode.all ∨
            (opts.supportMode = SupportMode.fragile ∧ isFragileBlock block) ∨
            opts.supportMode = SupportMode.steps)
          let colorAndSupport :=
            [(⟨Int.ofNat x, baseY, Int.ofNat z, resolveBlockName block⟩ : BlockEntry)] ++
            (if needsSupport ∧ 0 < baseY then
              [(⟨Int.ofNat x, baseY - 1, Int.ofNat z, resolveBlockName opts.fillerBlock⟩ : BlockEntry)]
             else [])
          let maxY1 := if needsSupport ∧ maxYUsed < baseY then max maxYUsed baseY else maxYUsed
          let shade := match cm with
            | some _ => 1
            | Option.none => (m.getD ⟨0, 0⟩).shade
          if fillerOn then
            if shade = 1 then
              (colorAndSupport ++
                [(⟨Int.ofNat x, baseY, Int.ofNat z - 1, resolveBlockName opts.fillerBlock⟩ : BlockEntry)],
               maxY1)
            else if shade ≠ 2 then
              (colorAndSupport ++
                [(⟨Int.ofNat x, baseY + 1, Int.ofNat z - 1, resolveBlockName opts.fillerBlock⟩ : BlockEntry)] ++
                (if opts.supportMode = SupportMode.steps ∨ opts.supportMode = SupportMode.all then
                  [(⟨Int.ofNat x, baseY, Int.ofNat z - 1, resolveBlockName opts.fillerBlock⟩ : BlockEntry)]
                 else []),
               if maxY1 < baseY + 1 then baseY + 1 else maxY1)
            else (colorAndSupport, maxY1)
          else (colorAndSupport, maxY1)

/-- One east-west step: its columns, its row parity, and the blocks plus the
maxYUsed reached (starting from baseY). -/
def ewStep (img : ImageData) (opts : ConversionOptions) (stepIdx : Nat) (baseY : Int) :
    List BlockEntry × Int :=
  let cols := if stepIdx = 0 then [127] else [128 - stepIdx, 127 - stepIdx]
  let useEvenRows := stepIdx % 2 = 0
  cols.foldl (fun (acc : List BlockEntry × Int) x =>
    (List.range 128).foldl (fun (acc : List BlockEntry × Int) z =>
      let isColorRow := if useEvenRows then z % 2 = 1 else z % 2 = 0
      if isColorRow then
        let r := ewPixelStep img opts baseY x z acc.2
        (acc.1 ++ r.1, r.2)
      else acc) acc) ([], baseY)

/-- All 128 east-west steps (anchor 127 down to 0), each step's base y one
above the previous step's maxYUsed. -/
def buildSuppressPairsEWSteps (img : ImageData) (opts : ConversionOptions) :
    List (List BlockEntry) :=
  ((List.range 128).foldl (fun (acc : List (List BlockEntry) × Int) stepIdx =>
    let r := ewStep img opts stepIdx acc.2
    (acc.1 ++ [r.1], r.2 + 1)) ([], 0)).1

def buildSuppressPairsEWBlocks (img : ImageData) (opts : ConversionOptions) :
    List BlockEntry :=
  (buildSuppressPairsEWSteps img opts).flatten

/-- getPixelInfo of the dual-layer builder: mapped shade (1 brightest, 2
middle, 3 darkest), block, liquidity, and the raw shade. -/
def dualPixelInfo (img : ImageData) (opts : ConversionOptions) (x z : Int) :
    Option (Nat × String × Bool × Nat) :=
  if 0 ≤ z ∧ z < 128 ∧ 0 ≤ x ∧ x < 128 then
    let xn := x.toNat
    let zn := z.toNat
    if alphaAt img xn zn = 0 then Option.none
    else
      let k := rgbAt img xn zn
      let m := getColorLookup k
      let cm := customGet opts.customColors k
      match m, cm with
      | Option.none, Option.none => Option.none
      | _, _ =>
        match suppressBlockChoice opts m cm with
        | Option.none => Option.none
        | some block =>
          let isW := match cm, m with
            | Option.none, some mm => (baseColorAt mm.baseIndex).isWater
            | _, _ => false
          let mcShade := match cm with
            | some _ => 1
            | Option.none => (m.getD ⟨0, 0⟩).shade
          let mapped := if mcShade = 2 then 1 else if mcShade = 1 then 2 else 3
          some (mapped, block, isW, mcShade)
  else Option.none

/-- Blocks emitted for one pixel of the dual-layer builder. -/
def dualPixelBlocks (img : ImageData) (opts : ConversionOptions) (L1 L2 : Int)
    (x z : Nat) : List BlockEntry :=
  match dualPixelInfo img opts (Int.ofNat x) (Int.ofNat z) with
  | Option.none => []
  | some info =>
    let shade := info.1
    let block := info.2.1
    let isW := info.2.2.1
    let mcShade := info.2.2.2
    let fillerOff := isFillerDisabled opts.fillerBlock
    if isW then
      (List.range (getWaterDepth mcShade x z)).map (fun d =>
        (⟨Int.ofNat x, L1 + Int.ofNat d, Int.ofNat z, resolveBlockName block⟩ : BlockEntry))
    else
      let isDom := z % 2 = 0
      let ns := match dualPixelInfo img opts (Int.ofNat x) (Int.ofNat z - 1) with
        | some n => n.1
        | Option.none => 0
      let ss := match dualPixelInfo img opts (Int.ofNat x) (Int.ofNat z + 1) with
        | some s => s.1
        | Option.none => 0
      let bName := resolveBlockName block
      let fName := resolveBlockName opts.fillerBlock
      if shade = 3 then
        if isDom then
          [(⟨Int.ofNat x, L1, Int.ofNat z, bName⟩ : BlockEntry)] ++
          (if fillerOff then []
           else if ns = 1 then [(⟨Int.ofNat x, L1 + 1, Int.ofNat z - 1, fName⟩ : BlockEntry)]
           else [(⟨Int.ofNat x, L2, Int.ofNat z - 1, fName⟩ : BlockEntry)])
        else
          if ss = 1 ∧ (ns = 2 ∨ ns = 3) then
            [(⟨Int.ofNat x, L2, Int.ofNat z, bName⟩ : BlockEntry)] ++
            (if fillerOff then []
             else [(⟨Int.ofNat x, L2 + 1, Int.ofNat z - 1, fName⟩ : BlockEntry)])
          else
            [(⟨Int.ofNat x, L1, Int.ofNat z, bName⟩ : BlockEntry)] ++
            (if fillerOff then []
             else if ns = 1 then [(⟨Int.ofNat x, L1 + 1, Int.ofNat z - 1, fName⟩ : BlockEntry)]
             else [(⟨Int.ofNat x, L2, Int.ofNat z - 1, fName⟩ : BlockEntry)])
      else if shade = 2 then
        if isDom then
          if ns = 1 then
            [(⟨Int.ofNat x, L1, Int.ofNat z, bName⟩ : BlockEntry)] ++
            (if fillerOff then [] else [(⟨Int.ofNat x, L1, Int.ofNat z - 1, fName⟩ : BlockEntry)])
          else if ns = 2 ∨ ns = 3 then
            [(⟨Int.ofNat x, L1, Int.ofNat z, bName⟩ : BlockEntry)]
          else
            [(⟨Int.ofNat x, L2, Int.ofNat z, bName⟩ : BlockEntry)] ++
            (if fillerOff then []
             else [(⟨Int.ofNat x, (if ss = 2 then L1 else L2), Int.ofNat z - 1, fName⟩ : BlockEntry)])
        else
          if 1 ≤ ns then [(⟨Int.ofNat x, L1, Int.ofNat z, bName⟩ : BlockEntry)]
          else
            [(⟨Int.ofNat x, L2, Int.ofNat z, bName⟩ : BlockEntry)] ++
            (if fillerOff then []
             else [(⟨Int.ofNat x, (if ss = 2 then L1 else L2), Int.ofNat z - 1, fName⟩ : BlockEntry)])
      else
        if isDom then [(⟨Int.ofNat x, L1, Int.ofNat z, bName⟩ : BlockEntry)]
        else [(⟨Int.ofNat x, L2, Int.ofNat z, bName⟩ : BlockEntry)]

/-- The dual-layer builder: x outer, z inner. -/
def buildSuppressDualLayerBlocks (img : ImageData) (opts : ConversionOptions) :
    List BlockEntry :=
  let L1 : Int := 0
  let L2 : Int := opts.layerGap.getD 5
  ((List.range 128).map (fun x =>
    ((List.range 128).map (fun z => dualPixelBlocks img opts L1 L2 x z)).flatten)).flatten

/-! ## Conversion entry point -/

/-- The staircase-family pipeline (build, variant, support, normalize). -/
def staircasePipeline (img : ImageData) (opts : ConversionOptions) :
    List BlockEntry × StructureSize :=
  normalizeAndMeasure
    (applySupport
      (applyStaircaseVariant (buildStaircaseBlocks img opts) opts.buildMode img opts) opts)

/-- convertToNbt, with the browser gzip stream abstracted as the gz
parameter: suppress_pairs yields a two-entry ZIP of independently compressed
structures; every other mode yields one compressed structure. -/
def convertToNbt (gz : List Nat → List Nat) (img : ImageData) (opts : ConversionOptions) :
    List Nat × Bool :=
  if opts.buildMode = BuildMode.suppress_pairs then
    let halves := buildSuppressPairsBlocks img opts
    let n0 := normalizeAndMeasure halves.1
    let n1 := normalizeAndMeasure halves.2
    let oddData := gz (writeStructureNbt n0.1 n0.2.sizeX n0.2.sizeY n0.2.sizeZ)
    let evenData := gz (writeStructureNbt n1.1 n1.2.sizeX n1.2.sizeY n1.2.sizeZ)
    (createZip [⟨opts.baseName ++ "-odd_rows.nbt", oddData⟩,
                ⟨opts.baseName ++ "-even_rows.nbt", evenData⟩], true)
  else if opts.buildMode = BuildMode.suppress_pairs_ew then
    let blocks := applySupport (buildSuppressPairsEWBlocks img opts) opts
    let n := normalizeAndMeasure blocks
    (gz (writeStructureNbt n.1 n.2.sizeX n.2.sizeY n.2.sizeZ), false)
  else if opts.buildMode = BuildMode.suppress_dual_layer then
    let blocks := applySupport (buildSuppressDualLayerBlocks img opts) opts
    let n := normalizeAndMeasure blocks
    (gz (writeStructureNbt n.1 n.2.sizeX n.2.sizeY n.2.sizeZ), false)
  else
    let n := staircasePipeline img opts
    (gz (writeStructureNbt n.1 n.2.sizeX n.2.sizeY n.2.sizeZ), false)

/-! ## Claim C2 — the GRASS example pixel -/

/-- 128×128, single opaque pixel (127,178,56) at x=5, z=1 (north neighbor
row z=0 is transparent). -/
def c2Img : ImageData :=
  ⟨128, 128, fun i =>
    if i = 532 then 127 else if i = 533 then 178 else if i = 534 then 56 else
    if i = 535 then 255 else 0⟩

def c2Opts : ConversionOptions :=
  { blockMapping := fun i => if i = 1 then some "grass_block" else Option.none,
    fillerBlock := "stone",
    customColors := [],
    buildMode := BuildMode.staircase_classic,
    supportMode := SupportMode.none,
    baseName := "map" }



/-- A transparent pixel only carries the north state forward. -/
lemma staircaseStep_transparent (img : ImageData) (opts : ConversionOptions)
    (g : Nat) (s : ColState) (x z : Nat) (h : alphaAt img x z = 0) :
    staircaseStep img opts g s x z = ({ y := s.y, transparent := true }, []) := by
  unfold staircaseStep
  rw [if_pos h]

/-- The inner staircase fold over transparent columns appends no blocks and
only carries states. -/
lemma rowFoldAux_transparent (img : ImageData) (opts : ConversionOptions)
    (st : List BlockEntry × List ColState) (z : Nat) (l : List Nat)
    (acc : List BlockEntry × List ColState)
    (h : ∀ x ∈ l, alphaAt img x z = 0) :
    l.foldl (fun (acc : List BlockEntry × List ColState) (x : Nat) =>
      let northState := st.2.getD x initialColState
      let step := staircaseStep img opts acc.1.length northState x z
      (acc.1 ++ step.2, acc.2 ++ [step.1])) acc =
    (acc.1, acc.2 ++ l.map (fun x =>
      ({ y := (st.2.getD x initialColState).y, transparent := true } : ColState))) := by
  induction l generalizing acc with
  | nil => simp
  | cons a t ih =>
    have ha := h a (List.mem_cons_self a t)
    rw [List.foldl_cons, ih _ (fun x hx => h x (List.mem_cons_of_mem a hx))]
    simp [staircaseStep_transparent img opts _ _ a z ha]

/-- A fully transparent row of the staircase scan fixes the block list and
carries every column state. -/
lemma staircaseRowFold_transparent (img : ImageData) (opts : ConversionOptions)
    (st : List BlockEntry × List ColState) (z : Nat)
    (h : ∀ x, x < 128 → alphaAt img x z = 0) :
    staircaseRowFold img opts st z =
      (st.1, (List.range 128).map (fun x =>
        ({ y := (st.2.getD x initialColState).y, transparent := true } : ColState))) := by
  unfold staircaseRowFold
  rw [rowFoldAux_transparent img opts st z (List.range 128) (st.1, [])
    (fun x hx => h x (List.mem_range.mp hx))]
  simp

lemma foldl_fixed {α β : Type} (f : α → β → α) (l : List β) (a : α)
    (h : ∀ b ∈ l, f a b = a) : l.foldl f a = a := by
  induction l with
  | nil => rfl
  | cons b t ih =>
    rw [List.foldl_cons, h b (List.mem_cons_self b t)]
    exact ih (fun c hc => h c (List.mem_cons_of_mem b hc))

/-- Rows at z at least 2 of the C2 image are entirely transparent. -/
lemma c2AlphaHigh (x z : Nat) (hx : x < 128) (hz : 2 ≤ z) : alphaAt c2Img x z = 0 := by
  simp only [alphaAt, c2Img]
  have h1 : (z * 128 + x) * 4 + 3 ≠ 532 := by omega
  have h2 : (z * 128 + x) * 4 + 3 ≠ 533 := by omega
  have h3 : (z * 128 + x) * 4 + 3 ≠ 534 := by omega
  have h4 : (z * 128 + x) * 4 + 3 ≠ 535 := by
    intro hc
    have : z * 128 + x = 133 := by omega
    omega
  rw [if_neg h1, if_neg h2, if_neg h3, if_neg h4]

def stateT64 : ColState := ⟨64, true, Option.none, Option.none, Option.none, Option.none, Option.none⟩

def stateT65F : ColState := ⟨65, false, Option.none, Option.none, Option.none, Option.none, Option.none⟩

def stateT65 : ColState := ⟨65, true, Option.none, Option.none, Option.none, Option.none, Option.none⟩

/-- Scan state after the pixel row of the C2 image. -/
def c2S2 : List BlockEntry × List ColState :=
  ([⟨5, 65, 1, "minecraft:grass_block"⟩],
   List.replicate 5 stateT64 ++ [stateT65F] ++ List.replicate 122 stateT64)

/-- Steady scan state of the C2 image from row 3 on. -/
def c2S3 : List BlockEntry × List ColState :=
  ([⟨5, 65, 1, "minecraft:grass_block"⟩],
   List.replicate 5 stateT64 ++ [stateT65] ++ List.replicate 122 stateT64)

set_option maxRecDepth 100000 in
set_option maxHeartbeats 4000000 in
/-- The staircase build on the C2 image evaluates to the single light-shade
voxel at (5, 65, 1). -/
lemma c2BuildEval :
    buildStaircaseBlocks c2Img c2Opts = [⟨5, 65, 1, "minecraft:grass_block"⟩] := by
  have h0 : staircaseRowFold c2Img c2Opts ([], List.replicate 128 initialColState) 0 =
      ([], List.replicate 128 initialColState) := by
    rw [staircaseRowFold_transparent c2Img c2Opts _ 0 (by decide)]
    decide
  have h1 : staircaseRowFold c2Img c2Opts ([], List.replicate 128 initialColState) 1 = c2S2 := by
    decide
  have h2 : staircaseRowFold c2Img c2Opts c2S2 2 = c2S3 := by
    rw [staircaseRowFold_transparent c2Img c2Opts c2S2 2
      (fun x hx => c2AlphaHigh x 2 hx (by omega))]
    decide
  have hfix : ∀ z ∈ List.range' 3 125, staircaseRowFold c2Img c2Opts c2S3 z = c2S3 := by
    intro z hz
    have hm : 3 ≤ z ∧ z < 3 + 125 := List.mem_range'_1.mp hz
    rw [staircaseRowFold_transparent c2Img c2Opts c2S3 z
      (fun x hx => c2AlphaHigh x z hx (by omega))]
    decide
  have hsplit : List.range 128 = [0, 1, 2] ++ List.range' 3 125 := by decide
  unfold buildStaircaseBlocks staircaseRowState
  rw [hsplit, List.foldl_append]
  simp only [List.foldl_cons, List.foldl_nil]
  rw [h0, h1, h2, foldl_fixed _ _ _ hfix]
  rfl

set_option maxRecDepth 100000 in
/-- C2 (counterexample): RGB (127,178,56) is the GRASS base color, which the
reverse lookup classifies as shade 2 (light), not flat (1); and in the
claim's scenario (that pixel at column 5, row 1, transparent north neighbor,
filler "stone", staircase_classic, support none) the conversion emits exactly
one voxel at (5, 0, 1) and no filler voxel at all, although the claim
requires a filler at (5, 0, 0) because the column's first pixel is not at the
grid's first row. -/
theorem c2_flat_claim_fails :
    getColorLookup (127, 178, 56) = some ⟨1, 2⟩ ∧ (2 : Nat) ≠ 1 ∧
    (staircasePipeline c2Img c2Opts).1 = [⟨5, 0, 1, "minecraft:grass_block"⟩] := by
  refine ⟨by decide, by decide, ?_⟩
  unfold staircasePipeline
  rw [c2BuildEval]
  decide

set_option maxRecDepth 100000 in
/-- C2 (amended): RGB (127,178,56) at column x=5 with a transparent north
neighbor, filler "stone", buildMode staircase_classic and supportMode none
classifies as palette GRASS with shade light, and the conversion emits
exactly one voxel at (5, 0, z) carrying the mapped block and no filler voxel
(a light-shade pixel never receives filler). -/
theorem c2_grass_pixel :
    getColorLookup (127, 178, 56) = some ⟨1, 2⟩ ∧
    (staircasePipeline c2Img c2Opts).1 = [⟨5, 0, 1, "minecraft:grass_block"⟩] := by
  refine ⟨by decide, ?_⟩
  unfold staircasePipeline
  rw [c2BuildEval]
  decide

/-! ## Claim C6 — bounds normalizer -/

/-- Modelled from the spec's words, for comparison in claim C6 only: "sizeZ =
the larger of the raw Z span and 128 (or 129 when the minimum Z was
negative)", reading "raw Z span" as maxZ - minZ + 1. -/
def sizeZSpec (blocks : List BlockEntry) : Int :=
  let minZ := ((blocks.map (fun b => b.z)).min?).getD 0
  let maxZ := ((blocks.map (fun b => b.z)).max?).getD 0
  max (maxZ - minZ + 1) (if minZ < 0 then 129 else 128)

/-- C6 (counterexample): for the single placement at z = 200, the normalizer
returns sizeZ = 201 — when minZ is non-negative the code measures z from 0
(maxZ + 1), not the z span — while the claim's "larger of the raw Z span and
128" gives 128. -/
theorem c6_sizez_span_fails :
    (normalizeAndMeasure [⟨0, 0, 200, "minecraft:stone"⟩]).2.sizeZ = 201 ∧
    sizeZSpec [⟨0, 0, 200, "minecraft:stone"⟩] = 128 ∧ (201 : Int) ≠ 128 :=
  ⟨by decide, by decide, by decide⟩

lemma intMin?_eq_some_iff {a : Int} {xs : List Int} :
    xs.min? = some a ↔ a ∈ xs ∧ ∀ b ∈ xs, a ≤ b :=
  @List.min?_eq_some_iff Int a _ _ ⟨fun h1 h2 => le_antisymm h1 h2⟩
    (fun a => le_refl a) (fun a b => min_choice a b) (fun a b c => le_min_iff) xs

/-- C6 (amended): for a non-empty placement list the normalizer shifts all y
down by the minimum y (the new minimum y is 0), shifts z by -minZ exactly
when the minimum z is negative, and returns sizeX = 128, sizeY =
maxY - minY + 1, and sizeZ = max (maxZ + 1) 128 when minZ is non-negative
(z measured from 0), and max (maxZ - minZ + 1) 129 when minZ is negative. -/
theorem c6_normalize (blocks : List BlockEntry) (h : blocks ≠ []) :
    ∃ minY maxY minZ maxZ : Int,
      ((blocks.map (fun b => b.y)).min? = some minY ∧
       (blocks.map (fun b => b.y)).max? = some maxY ∧
       (blocks.map (fun b => b.z)).min? = some minZ ∧
       (blocks.map (fun b => b.z)).max? = some maxZ) ∧
      (normalizeAndMeasure blocks).1 = blocks.map (fun b =>
        { b with y := b.y - minY, z := if minZ < 0 then b.z - minZ else b.z }) ∧
      ((normalizeAndMeasure blocks).1.map (fun b => b.y)).min? = some 0 ∧
      (normalizeAndMeasure blocks).2.sizeX = 128 ∧
      (normalizeAndMeasure blocks).2.sizeY = maxY - minY + 1 ∧
      (normalizeAndMeasure blocks).2.sizeZ =
        max ((if minZ < 0 then maxZ - minZ else maxZ) + 1)
          (if minZ < 0 then (129 : Int) else 128) := by
  obtain ⟨b0, bs, rfl⟩ := List.exists_cons_of_ne_nil h
  have hne : (b0 :: bs).map (fun b => b.y) ≠ [] := by
    intro hc; exact h (List.map_eq_nil_iff.mp hc)
  have hnez : (b0 :: bs).map (fun b => b.z) ≠ [] := by
    intro hc; exact h (List.map_eq_nil_iff.mp hc)
  obtain ⟨minY, hminY⟩ : ∃ m, ((b0 :: bs).map (fun b => b.y)).min? = some m := by
    cases hm : ((b0 :: bs).map (fun b => b.y)).min? with
    | none => exact absurd (List.min?_eq_none_iff.mp hm) hne
    | some m => exact ⟨m, rfl⟩
  obtain ⟨maxY, hmaxY⟩ : ∃ m, ((b0 :: bs).map (fun b => b.y)).max? = some m := by
    cases hm : ((b0 :: bs).map (fun b => b.y)).max? with
    | none => exact absurd (List.max?_eq_none_iff.mp hm) hne
    | some m => exact ⟨m, rfl⟩
  obtain ⟨minZ, hminZ⟩ : ∃ m, ((b0 :: bs).map (fun b => b.z)).min? = some m := by
    cases hm : ((b0 :: bs).map (fun b => b.z)).min? with
    | none => exact absurd (List.min?_eq_none_iff.mp hm) hnez
    | some m => exact ⟨m, rfl⟩
  obtain ⟨maxZ, hmaxZ⟩ : ∃ m, ((b0 :: bs).map (fun b => b.z)).max? = some m := by
    cases hm : ((b0 :: bs).map (fun b => b.z)).max? with
    | none => exact absurd (List.max?_eq_none_iff.mp hm) hnez
    | some m => exact ⟨m, rfl⟩
  have hred : normalizeAndMeasure (b0 :: bs) =
      ((b0 :: bs).map (fun b =>
        { b with y := b.y - minY, z := if minZ < 0 then b.z - minZ else b.z }),
       ⟨128, maxY - minY + 1,
        max ((if minZ < 0 then maxZ - minZ else maxZ) + 1)
          (if minZ < 0 then (129 : Int) else 128)⟩) := by
    simp only [normalizeAndMeasure]
    rw [hminY, hmaxY, hminZ, hmaxZ]
    rfl
  obtain ⟨hmem, hle⟩ := intMin?_eq_some_iff.mp hminY
  refine ⟨minY, maxY, minZ, maxZ, ⟨hminY, hmaxY, hminZ, hmaxZ⟩,
    by rw [hred], ?_, by rw [hred], by rw [hred], by rw [hred]⟩
  rw [hred]
  refine intMin?_eq_some_iff.mpr ⟨?_, ?_⟩
  · simp only [List.map_map, List.mem_map]
    obtain ⟨b, hb, hby⟩ := List.mem_map.mp hmem
    exact ⟨b, hb, by simp [Function.comp, hby]⟩
  · intro v hv
    simp only [List.map_map, List.mem_map] at hv
    obtain ⟨b, hb, hbv⟩ := hv
    have := hle b.y (List.mem_map.mpr ⟨b, hb, rfl⟩)
    simp only [Function.comp] at hbv
    omega

/-! ## Claim C7 — the all-support invariants -/

/-- The all-support fold invariants: the occupied set tracks exactly the
original and inserted positions, inserted positions are distinct and never
collide with original ones, inserted entries carry the filler name, the
extra list only grows, and every processed block has its below-cell
occupied. -/
lemma allSupportFoldInvariant (fillerBlock : String) (base : List (Int × Int × Int)) :
    ∀ (l : List BlockEntry) (acc : List (Int × Int × Int) × List BlockEntry),
    (∀ k, k ∈ acc.1 ↔ (k ∈ base ∨ k ∈ acc.2.map posKey)) →
    (acc.2.map posKey).Nodup →
    (∀ e ∈ acc.2, e.blockName = resolveBlockName fillerBlock ∧ posKey e ∉ base) →
    (∀ k, k ∈ (l.foldl (allSupportStep fillerBlock) acc).1 ↔
      (k ∈ base ∨ k ∈ (l.foldl (allSupportStep fillerBlock) acc).2.map posKey)) ∧
    ((l.foldl (allSupportStep fillerBlock) acc).2.map posKey).Nodup ∧
    (∀ e ∈ (l.foldl (allSupportStep fillerBlock) acc).2,
      e.blockName = resolveBlockName fillerBlock ∧ posKey e ∉ base) ∧
    (∃ suffix, (l.foldl (allSupportStep fillerBlock) acc).2 = acc.2 ++ suffix) ∧
    (∀ b ∈ l, (b.x, b.y - 1, b.z) ∈ (l.foldl (allSupportStep fillerBlock) acc).1) := by
  intro l
  induction l with
  | nil =>
    intro acc h1 h2 h3
    exact ⟨h1, h2, h3, ⟨[], by simp⟩, by simp⟩
  | cons b t ih =>
    intro acc h1 h2 h3
    rw [List.foldl_cons]
    by_cases hc : acc.1.contains (b.x, b.y - 1, b.z)
    · have hstep : allSupportStep fillerBlock acc b = acc := by
        unfold allSupportStep
        rw [if_pos hc]
      rw [hstep]
      obtain ⟨g1, g2, g3, ⟨suffix, hsuf⟩, g5⟩ := ih acc h1 h2 h3
      refine ⟨g1, g2, g3, ⟨suffix, hsuf⟩, ?_⟩
      intro c hc2
      rcases List.mem_cons.mp hc2 with rfl | hct
      · have hmem : (c.x, c.y - 1, c.z) ∈ acc.1 := by simpa using hc
        rcases (h1 _).mp hmem with hb | he
        · exact (g1 _).mpr (Or.inl hb)
        · rw [hsuf] at g1
          exact (g1 _).mpr (Or.inr (by simp [he]))
      · exact g5 c hct
    · have hnm : (b.x, b.y - 1, b.z) ∉ acc.1 := by simpa using hc
      have hstep : allSupportStep fillerBlock acc b =
          (acc.1 ++ [(b.x, b.y - 1, b.z)],
           acc.2 ++ [(⟨b.x, b.y - 1, b.z, resolveBlockName fillerBlock⟩ : BlockEntry)]) := by
        unfold allSupportStep
        rw [if_neg hc]
      rw [hstep]
      have hnotbase : (b.x, b.y - 1, b.z) ∉ base := fun hb => hnm ((h1 _).mpr (Or.inl hb))
      have hnotex : (b.x, b.y - 1, b.z) ∉ acc.2.map posKey :=
        fun hb => hnm ((h1 _).mpr (Or.inr hb))
      have h1' : ∀ k, k ∈ acc.1 ++ [(b.x, b.y - 1, b.z)] ↔
          (k ∈ base ∨ k ∈ (acc.2 ++
            [(⟨b.x, b.y - 1, b.z, resolveBlockName fillerBlock⟩ : BlockEntry)]).map posKey) := by
        intro k
        simp only [List.mem_append, List.mem_singleton, List.map_append, List.map_cons,
          List.map_nil, h1 k, posKey]
        tauto
      have h2' : ((acc.2 ++
          [(⟨b.x, b.y - 1, b.z, resolveBlockName fillerBlock⟩ : BlockEntry)]).map posKey).Nodup := by
        rw [List.map_append, List.nodup_append]
        refine ⟨h2, by simp, ?_⟩
        intro k hk
        simp only [List.map_cons, List.map_nil, List.mem_singleton, posKey]
        intro hkeq
        rw [hkeq] at hk
        exact hnotex hk
      have h3' : ∀ e ∈ acc.2 ++
          [(⟨b.x, b.y - 1, b.z, resolveBlockName fillerBlock⟩ : BlockEntry)],
          e.blockName = resolveBlockName fillerBlock ∧ posKey e ∉ base := by
        intro e he
        rcases List.mem_append.mp he with hel | her
        · exact h3 e hel
        · rcases List.mem_singleton.mp her with rfl
          exact ⟨rfl, by simpa [posKey] using hnotbase⟩
      obtain ⟨g1, g2, g3, ⟨suffix, hsuf⟩, g5⟩ := ih
        (acc.1 ++ [(b.x, b.y - 1, b.z)],
         acc.2 ++ [(⟨b.x, b.y - 1, b.z, resolveBlockName fillerBlock⟩ : BlockEntry)]) h1' h2' h3'
      refine ⟨g1, g2, g3,
        ⟨[(⟨b.x, b.y - 1, b.z, resolveBlockName fillerBlock⟩ : BlockEntry)] ++ suffix,
         by rw [hsuf]; simp⟩, ?_⟩
      intro c hc2
      rcases List.mem_cons.mp hc2 with rfl | hct
      · rw [hsuf] at g1
        exact (g1 _).mpr (Or.inr (by simp [posKey]))
      · exact g5 c hct

/-- C7: after the "all" support pass, every original voxel has a block
directly beneath it — a pre-existing voxel or exactly one inserted filler —
and insertion never targets an occupied coordinate: the inserted entries
have pairwise distinct positions, none of which is an original position. -/
theorem c7_all_support (blocks : List BlockEntry) (fillerBlock : String) :
    (∃ extra, addAllSupport blocks fillerBlock = blocks ++ extra ∧
      (extra.map posKey).Nodup ∧
      (∀ e ∈ extra, posKey e ∉ blocks.map posKey ∧
        e.blockName = resolveBlockName fillerBlock)) ∧
    (∀ b ∈ blocks, ∃ c ∈ addAllSupport blocks fillerBlock,
      c.x = b.x ∧ c.y = b.y - 1 ∧ c.z = b.z) := by
  obtain ⟨g1, g2, g3, _, g5⟩ := allSupportFoldInvariant fillerBlock (blocks.map posKey)
    blocks (blocks.map posKey, []) (by intro k; simp) (by simp) (by simp)
  constructor
  · refine ⟨_, rfl, g2, ?_⟩
    intro e he
    exact ⟨(g3 e he).2, (g3 e he).1⟩
  · intro b hb
    have hbelow := g5 b hb
    rcases (g1 _).mp hbelow with hmem | hmem
    · obtain ⟨c, hcmem, hck⟩ := List.mem_map.mp hmem
      refine ⟨c, by unfold addAllSupport; exact List.mem_append.mpr (Or.inl hcmem), ?_⟩
      simp only [posKey, Prod.mk.injEq] at hck
      exact ⟨hck.1, hck.2.1, hck.2.2⟩
    · obtain ⟨c, hcmem, hck⟩ := List.mem_map.mp hmem
      refine ⟨c, by unfold addAllSupport; exact List.mem_append.mpr (Or.inr hcmem), ?_⟩
      simp only [posKey, Prod.mk.injEq] at hck
      exact ⟨hck.1, hck.2.1, hck.2.2⟩

/-- C7 witness: the theorem at a two-voxel stack — the stack's upper voxel is
supported by the lower one, and only one filler is inserted, beneath the
stack. -/
theorem c7_all_support_witness :
    ((∃ extra, addAllSupport [⟨0, 1, 0, "minecraft:water"⟩, ⟨0, 2, 0, "minecraft:water"⟩] "stone" =
        [⟨0, 1, 0, "minecraft:water"⟩, ⟨0, 2, 0, "minecraft:water"⟩] ++ extra ∧
      (extra.map posKey).Nodup ∧
      (∀ e ∈ extra, posKey e ∉
        ([⟨0, 1, 0, "minecraft:water"⟩, (⟨0, 2, 0, "minecraft:water"⟩ : BlockEntry)].map posKey) ∧
        e.blockName = resolveBlockName "stone")) ∧
    (∀ b ∈ [⟨0, 1, 0, "minecraft:water"⟩, (⟨0, 2, 0, "minecraft:water"⟩ : BlockEntry)],
      ∃ c ∈ addAllSupport [⟨0, 1, 0, "minecraft:water"⟩, ⟨0, 2, 0, "minecraft:water"⟩] "stone",
      c.x = b.x ∧ c.y = b.y - 1 ∧ c.z = b.z)) :=
  c7_all_support [⟨0, 1, 0, "minecraft:water"⟩, ⟨0, 2, 0, "minecraft:water"⟩] "stone"

/-! ## Claim C5 — palette deduplication and state resolution -/

/-- First-appearance deduplication, written by recursion: keep the head,
drop its later duplicates. -/
def firstDedup {α : Type} [DecidableEq α] : List α → List α
  | [] => []
  | a :: l => a :: firstDedup (l.filter (fun b => decide (¬ b = a)))
termination_by l => l.length
decreasing_by
  simp only [List.length_cons]
  exact Nat.lt_succ_of_le (List.length_filter_le _ _)

lemma firstDedup_nil {α : Type} [DecidableEq α] : firstDedup ([] : List α) = [] := by
  rw [firstDedup]

lemma firstDedup_cons {α : Type} [DecidableEq α] (a : α) (l : List α) :
    firstDedup (a :: l) = a :: firstDedup (l.filter (fun b => decide (¬ b = a))) := by
  rw [firstDedup]

lemma mem_firstDedup_aux {α : Type} [DecidableEq α] :
    ∀ (n : Nat) (l : List α), l.length ≤ n → ∀ a, (a ∈ firstDedup l ↔ a ∈ l) := by
  intro n
  induction n with
  | zero =>
    intro l hl a
    rw [List.length_eq_zero.mp (Nat.le_zero.mp hl)]
    rw [firstDedup_nil]
  | succ n ih =>
    intro l hl a
    match l with
    | [] => rw [firstDedup_nil]
    | b :: t =>
      rw [firstDedup_cons, List.mem_cons, List.mem_cons]
      have hlen : (t.filter (fun c => decide (¬ c = b))).length ≤ n :=
        le_trans (List.length_filter_le _ _) (by simpa using hl)
      rw [ih _ hlen a, List.mem_filter]
      by_cases hab : a = b
      · simp [hab]
      · simp [hab]

lemma mem_firstDedup {α : Type} [DecidableEq α] (l : List α) (a : α) :
    a ∈ firstDedup l ↔ a ∈ l :=
  mem_firstDedup_aux l.length l (le_refl _) a

lemma nodup_firstDedup_aux {α : Type} [DecidableEq α] :
    ∀ (n : Nat) (l : List α), l.length ≤ n → (firstDedup l).Nodup := by
  intro n
  induction n with
  | zero =>
    intro l hl
    rw [List.length_eq_zero.mp (Nat.le_zero.mp hl), firstDedup_nil]
    exact List.nodup_nil
  | succ n ih =>
    intro l hl
    match l with
    | [] => rw [firstDedup_nil]; exact List.nodup_nil
    | b :: t =>
      rw [firstDedup_cons]
      have hlen : (t.filter (fun c => decide (¬ c = b))).length ≤ n :=
        le_trans (List.length_filter_le _ _) (by simpa using hl)
      refine List.Nodup.cons ?_ (ih _ hlen)
      intro hmem
      have := (mem_firstDedup_aux n _ hlen b).mp hmem
      rcases List.mem_filter.mp this with ⟨_, hb⟩
      simp at hb

lemma mapGet_append_single {κ α : Type} [DecidableEq κ] (l : List (κ × α)) (p : κ × α)
    (k : κ) : mapGet (l ++ [p]) k = if p.1 = k then some p.2 else mapGet l k := by
  unfold mapGet
  rw [List.foldl_append]
  rfl

lemma mapGet_eq_none_iff {κ α : Type} [DecidableEq κ] (l : List (κ × α)) (k : κ) :
    mapGet l k = Option.none ↔ k ∉ l.map Prod.fst := by
  induction l using List.reverseRecOn with
  | nil => simp [mapGet]
  | append_singleton t p ih =>
    rw [mapGet_append_single]
    by_cases hp : p.1 = k
    · simp [hp]
    · simp only [hp, if_false, ih, List.map_append, List.map_cons, List.map_nil]
      constructor
      · intro h hc
        rcases List.mem_append.mp hc with h1 | h2
        · exact h h1
        · simp at h2; exact hp h2.symm
      · intro h hc
        exact h (List.mem_append.mpr (Or.inl hc))

lemma mapGet_mem {κ α : Type} [DecidableEq κ] (l : List (κ × α)) (k : κ) (v : α)
    (h : mapGet l k = some v) : (k, v) ∈ l := by
  induction l using List.reverseRecOn with
  | nil => simp [mapGet] at h
  | append_singleton t p ih =>
    rw [mapGet_append_single] at h
    by_cases hp : p.1 = k
    · rw [if_pos hp] at h
      have hv : p.2 = v := Option.some.inj h
      rcases p with ⟨pk, pv⟩
      simp only at hp hv
      rw [← hp, ← hv]
      simp
    · rw [if_neg hp] at h
      exact List.mem_append.mpr (Or.inl (ih h))

/-- The palette fold invariants: the parsed palette mirrors the key list,
keys stay distinct, every map binding indexes its parse in the palette, and
the keys grow by first-appearance deduplication of the processed names. -/
lemma paletteFoldInvariant :
    ∀ (l : List BlockEntry) (acc : List (String × Nat) × List ParsedBlock),
    acc.2 = (acc.1.map Prod.fst).map parseBlockId →
    (acc.1.map Prod.fst).Nodup →
    (∀ p ∈ acc.1, acc.2.get? p.2 = some (parseBlockId p.1)) →
    (l.foldl paletteStep acc).2 =
      ((l.foldl paletteStep acc).1.map Prod.fst).map parseBlockId ∧
    ((l.foldl paletteStep acc).1.map Prod.fst).Nodup ∧
    (∀ p ∈ (l.foldl paletteStep acc).1,
      (l.foldl paletteStep acc).2.get? p.2 = some (parseBlockId p.1)) ∧
    (l.foldl paletteStep acc).1.map Prod.fst = acc.1.map Prod.fst ++
      firstDedup ((l.map (fun b => b.blockName)).filter
        (fun n => decide (¬ n ∈ acc.1.map Prod.fst))) := by
  intro l
  induction l with
  | nil =>
    intro acc h1 h2 h3
    refine ⟨h1, h2, h3, by simp [firstDedup_nil]⟩
  | cons b t ih =>
    intro acc h1 h2 h3
    rw [List.foldl_cons]
    by_cases hc : (mapGet acc.1 b.blockName).isSome
    · have hstep : paletteStep acc b = acc := by
        unfold paletteStep
        rw [if_pos hc]
      rw [hstep]
      have hmem : b.blockName ∈ acc.1.map Prod.fst := by
        by_contra hn
        rw [← mapGet_eq_none_iff] at hn
        rw [hn] at hc
        simp at hc
      obtain ⟨g1, g2, g3, g4⟩ := ih acc h1 h2 h3
      refine ⟨g1, g2, g3, ?_⟩
      rw [g4]
      congr 2
      simp only [List.map_cons, List.filter_cons]
      rw [if_neg (by simp [hmem])]
    · have hnone : mapGet acc.1 b.blockName = Option.none := by
        cases hm : mapGet acc.1 b.blockName with
        | none => rfl
        | some v => rw [hm] at hc; simp at hc
      have hstep : paletteStep acc b =
          (acc.1 ++ [(b.blockName, acc.2.length)], acc.2 ++ [parseBlockId b.blockName]) := by
        unfold paletteStep
        rw [if_neg (by rw [hnone]; simp)]
      rw [hstep]
      have hnmem : b.blockName ∉ acc.1.map Prod.fst := (mapGet_eq_none_iff _ _).mp hnone
      have h1' : (acc.2 ++ [parseBlockId b.blockName]) =
          (((acc.1 ++ [(b.blockName, acc.2.length)]).map Prod.fst).map parseBlockId) := by
        simp only [List.map_append, List.map_cons, List.map_nil]
        rw [h1]
      have h2' : ((acc.1 ++ [(b.blockName, acc.2.length)]).map Prod.fst).Nodup := by
        simp only [List.map_append, List.map_cons, List.map_nil, List.nodup_append]
        exact ⟨h2, by simp, by intro a ha hb; simp at hb; rw [hb] at ha; exact hnmem ha⟩
      have h3' : ∀ p ∈ acc.1 ++ [(b.blockName, acc.2.length)],
          (acc.2 ++ [parseBlockId b.blockName]).get? p.2 = some (parseBlockId p.1) := by
        intro p hp
        rcases List.mem_append.mp hp with hl | hr
        · have hold := h3 p hl
          have hlt : p.2 < acc.2.length := by
            by_contra hge
            rw [List.get?_eq_none.mpr (Nat.le_of_not_lt hge)] at hold
            exact Option.noConfusion hold
          rw [List.get?_append hlt]
          exact hold
        · rcases List.mem_singleton.mp hr with rfl
          simp
      obtain ⟨g1, g2, g3, g4⟩ := ih
        (acc.1 ++ [(b.blockName, acc.2.length)], acc.2 ++ [parseBlockId b.blockName])
        h1' h2' h3'
      refine ⟨g1, g2, g3, ?_⟩
      rw [g4]
      simp only [List.map_append, List.map_cons, List.map_nil, List.append_assoc,
        List.filter_cons]
      rw [if_pos (by simp [hnmem])]
      congr 1
      rw [List.singleton_append, firstDedup_cons]
      congr 1
      rw [List.filter_filter]
      congr 1
      apply List.filter_congr
      intro a _
      simp only [List.mem_append, List.mem_singleton, decide_not]
      by_cases hab : a = b.blockName
      · simp [hab]
      · by_cases ham : a ∈ acc.1.map Prod.fst
        · simp [hab, ham]
        · simp [hab, ham]

/-- Concrete placements for the C5 witness: a duplicate identifier and one
with a property suffix. -/
def c5Blocks : List BlockEntry :=
  [⟨0, 0, 0, "minecraft:stone"⟩,
   ⟨1, 0, 0, "minecraft:oak_leaves[waterlogged=true,persistent=true]"⟩,
   ⟨2, 0, 0, "minecraft:stone"⟩]

/-- C5: the palette of writeStructureNbt holds each distinct block
identifier exactly once, in first-appearance order, each entry being the
identifier's parse (name plus bracketed key=value properties); and every
voxel's serialized state index (the palette-map binding of its identifier,
written as the "state" tag) resolves through the palette to exactly that
parse. -/
theorem c5_palette_roundtrip (blocks : List BlockEntry) :
    ((buildPalette blocks).1.map Prod.fst).Nodup ∧
    (buildPalette blocks).1.map Prod.fst = firstDedup (blocks.map (fun b => b.blockName)) ∧
    (buildPalette blocks).2 =
      (firstDedup (blocks.map (fun b => b.blockName))).map parseBlockId ∧
    (∀ b ∈ blocks, ∃ i, mapGet (buildPalette blocks).1 b.blockName = some i ∧
      (buildPalette blocks).2.get? i = some (parseBlockId b.blockName)) := by
  obtain ⟨g1, g2, g3, g4⟩ := paletteFoldInvariant blocks ([], [])
    (by simp) (by simp) (by simp)
  have hkeys : (buildPalette blocks).1.map Prod.fst =
      firstDedup (blocks.map (fun b => b.blockName)) := by
    unfold buildPalette
    rw [g4]
    simp only [List.map_nil, List.nil_append]
    congr 1
    apply List.filter_eq_self.mpr
    intro a _
    simp
  have hpal : (buildPalette blocks).2 =
      (firstDedup (blocks.map (fun b => b.blockName))).map parseBlockId := by
    have he : (buildPalette blocks).2 =
        ((buildPalette blocks).1.map Prod.fst).map parseBlockId := g1
    rw [he, hkeys]
  refine ⟨g2, hkeys, hpal, ?_⟩
  intro b hb
  have hmemk : b.blockName ∈ (buildPalette blocks).1.map Prod.fst := by
    rw [hkeys, mem_firstDedup]
    exact List.mem_map.mpr ⟨b, hb, rfl⟩
  cases hm : mapGet (buildPalette blocks).1 b.blockName with
  | none => exact absurd hmemk ((mapGet_eq_none_iff _ _).mp hm)
  | some i => exact ⟨i, rfl, g3 (b.blockName, i) (mapGet_mem _ _ _ hm)⟩

/-- C5 witness: the theorem at a list with a repeated identifier and a
bracketed property suffix. -/
theorem c5_palette_roundtrip_witness :
    (((buildPalette c5Blocks).1.map Prod.fst).Nodup ∧
     (buildPalette c5Blocks).1.map Prod.fst =
       firstDedup (c5Blocks.map (fun b => b.blockName)) ∧
     (buildPalette c5Blocks).2 =
       (firstDedup (c5Blocks.map (fun b => b.blockName))).map parseBlockId ∧
     (∀ b ∈ c5Blocks, ∃ i, mapGet (buildPalette c5Blocks).1 b.blockName = some i ∧
       (buildPalette c5Blocks).2.get? i = some (parseBlockId b.blockName))) :=
  c5_palette_roundtrip c5Blocks

/-! ## Claim C6 witness -/

/-- C6 witness: the normalizer theorem at a single placement with negative z
(a filler row at z = -1). -/
theorem c6_normalize_witness :
    ([(⟨1, 5, -1, "minecraft:stone"⟩ : BlockEntry)] ≠ []) ∧
    (∃ minY maxY minZ maxZ : Int,
      (([(⟨1, 5, -1, "minecraft:stone"⟩ : BlockEntry)].map (fun b => b.y)).min? = some minY ∧
       ([(⟨1, 5, -1, "minecraft:stone"⟩ : BlockEntry)].map (fun b => b.y)).max? = some maxY ∧
       ([(⟨1, 5, -1, "minecraft:stone"⟩ : BlockEntry)].map (fun b => b.z)).min? = some minZ ∧
       ([(⟨1, 5, -1, "minecraft:stone"⟩ : BlockEntry)].map (fun b => b.z)).max? = some maxZ) ∧
      (normalizeAndMeasure [(⟨1, 5, -1, "minecraft:stone"⟩ : BlockEntry)]).1 =
        [(⟨1, 5, -1, "minecraft:stone"⟩ : BlockEntry)].map (fun b =>
          { b with y := b.y - minY, z := if minZ < 0 then b.z - minZ else b.z }) ∧
      ((normalizeAndMeasure [(⟨1, 5, -1, "minecraft:stone"⟩ : BlockEntry)]).1.map
        (fun b => b.y)).min? = some 0 ∧
      (normalizeAndMeasure [(⟨1, 5, -1, "minecraft:stone"⟩ : BlockEntry)]).2.sizeX = 128 ∧
      (normalizeAndMeasure [(⟨1, 5, -1, "minecraft:stone"⟩ : BlockEntry)]).2.sizeY =
        maxY - minY + 1 ∧
      (normalizeAndMeasure [(⟨1, 5, -1, "minecraft:stone"⟩ : BlockEntry)]).2.sizeZ =
        max ((if minZ < 0 then maxZ - minZ else maxZ) + 1)
          (if minZ < 0 then (129 : Int) else 128)) :=
  ⟨by decide, c6_normalize [(⟨1, 5, -1, "minecraft:stone"⟩ : BlockEntry)] (by decide)⟩

/-! ## Claim C10 — custom colors in the staircase builder -/

/-- C10: an opaque pixel matching a caller-supplied custom color is placed at
the carried north reference height (exactly the flat-shade treatment,
whatever the custom color's brightness), with a filler one row north at that
height exactly when the north neighbor was transparent and filler is
enabled. The statement holds for every palette-lookup outcome of that RGB,
so a custom match takes priority over a palette match of the same triple. -/
theorem c10_custom_priority (img : ImageData) (opts : ConversionOptions) (g : Nat)
    (s : ColState) (x z : Nat) (cm : CustomColor)
    (ha : alphaAt img x z ≠ 0)
    (hc : customGet opts.customColors (rgbAt img x z) = some cm) :
    staircaseStep img opts g s x z =
      ({ y := s.y, transparent := false },
       (if s.transparent && !(isFillerDisabled opts.fillerBlock) then
         [(⟨Int.ofNat x, s.y, Int.ofNat z - 1, resolveBlockName opts.fillerBlock⟩ : BlockEntry)]
        else []) ++
       [⟨Int.ofNat x, s.y, Int.ofNat z, resolveBlockName cm.block⟩]) := by
  cases hm : getColorLookup (rgbAt img x z) with
  | none => simp only [staircaseStep, ha, if_false, hm, hc]
  | some m => simp only [staircaseStep, ha, if_false, hm, hc]

/-- Image with the GRASS base RGB at pixel (0, 0) for the C10 witness. -/
def c10Img : ImageData :=
  ⟨128, 128, fun i =>
    if i = 0 then 127 else if i = 1 then 178 else if i = 2 then 56 else
    if i = 3 then 255 else 0⟩

/-- Options mapping the same RGB to a custom block, so both the palette and
the custom table match pixel (0, 0). -/
def c10Opts : ConversionOptions :=
  { blockMapping := fun _ => Option.none,
    fillerBlock := "stone",
    customColors := [⟨127, 178, 56, "slime_block"⟩],
    buildMode := BuildMode.staircase_classic,
    supportMode := SupportMode.none,
    baseName := "map" }

set_option maxRecDepth 8000 in
/-- C10 witness: the step theorem at pixel (0, 0) of the witness image, whose
RGB also has a palette match, with a transparent north state. -/
theorem c10_custom_priority_witness :
    staircaseStep c10Img c10Opts 0 initialColState 0 0 =
      ({ y := (initialColState : ColState).y, transparent := false },
       (if (initialColState : ColState).transparent && !(isFillerDisabled c10Opts.fillerBlock) then
         [(⟨Int.ofNat 0, (initialColState : ColState).y, Int.ofNat 0 - 1,
            resolveBlockName c10Opts.fillerBlock⟩ : BlockEntry)]
        else []) ++
       [⟨Int.ofNat 0, (initialColState : ColState).y, Int.ofNat 0,
         resolveBlockName (CustomColor.mk 127 178 56 "slime_block").block⟩]) :=
  c10_custom_priority c10Img c10Opts 0 initialColState 0 0 ⟨127, 178, 56, "slime_block"⟩
    (by decide) (by decide)

/-! ## Claim C8 — the suppress_pairs archive -/

lemma dropPastTwo {a b rest : List Nat} (k : Nat) :
    (a ++ (b ++ rest)).drop (a.length + b.length + k) = rest.drop k := by
  rw [Nat.add_assoc, List.drop_append, List.drop_append]

lemma dropPastThree {a b c rest : List Nat} (k : Nat) :
    (a ++ (b ++ (c ++ rest))).drop (a.length + b.length + c.length + k) = rest.drop k := by
  rw [Nat.add_assoc, Nat.add_assoc, List.drop_append, List.drop_append, List.drop_append]

lemma dropPastFour {a b c d rest : List Nat} (k : Nat) :
    (a ++ (b ++ (c ++ (d ++ rest)))).drop
      (a.length + b.length + c.length + d.length + k) = rest.drop k := by
  rw [Nat.add_assoc, Nat.add_assoc, Nat.add_assoc,
    List.drop_append, List.drop_append, List.drop_append, List.drop_append]

lemma zipLocalChunk_length (e : ZipEntry) :
    (zipLocalChunk e).length = 30 + (utf8Bytes e.name).length + e.data.length := by
  unfold zipLocalChunk u32le u16le
  simp [List.length_append]
  omega

lemma zipCentralChunk_length (cd : CdEntry) :
    (zipCentralChunk cd).length = 46 + cd.nameBytes.length := by
  unfold zipCentralChunk u32le u16le
  simp [List.length_append]
  omega

/-- The local header stores method 0, the CRC-32 of the data, equal
compressed and uncompressed sizes, and then name and data verbatim. -/
lemma localChunk_layout (e : ZipEntry) (R : List Nat) :
    ((zipLocalChunk e ++ R).drop 8).take 2 = [0, 0] ∧
    ((zipLocalChunk e ++ R).drop 14).take 4 = u32le (crc32 e.data) ∧
    ((zipLocalChunk e ++ R).drop 18).take 8 = u32le e.data.length ++ u32le e.data.length ∧
    ((zipLocalChunk e ++ R).drop 30).take (utf8Bytes e.name).length = utf8Bytes e.name ∧
    ((zipLocalChunk e ++ R).drop (30 + (utf8Bytes e.name).length)).take e.data.length =
      e.data := by
  refine ⟨?_, ?_, ?_, ?_, ?_⟩
  · simp [zipLocalChunk, u32le, u16le]
  · simp [zipLocalChunk, u32le, u16le]
  · simp [zipLocalChunk, u32le, u16le]
  · simp only [zipLocalChunk, u32le, u16le, List.append_assoc, List.cons_append,
      List.nil_append, List.drop_succ_cons, List.drop_zero]
    rw [List.take_left' rfl]
  · rw [← List.drop_drop]
    simp only [zipLocalChunk, u32le, u16le, List.append_assoc, List.cons_append,
      List.nil_append, List.drop_succ_cons, List.drop_zero]
    rw [List.drop_left' rfl, List.take_left' rfl]

lemma createZip_two (e1 e2 : ZipEntry) :
    createZip [e1, e2] =
      zipLocalChunk e1 ++
      (zipLocalChunk e2 ++
      (zipCentralChunk ⟨0, utf8Bytes e1.name, crc32 e1.data, e1.data.length⟩ ++
      (zipCentralChunk ⟨(zipLocalChunk e1).length, utf8Bytes e2.name,
          crc32 e2.data, e2.data.length⟩ ++
      (u32le 0x06054B50 ++ (u16le 0 ++ (u16le 0 ++ (u16le 2 ++ (u16le 2 ++
      (u32le ((zipCentralChunk ⟨0, utf8Bytes e1.name, crc32 e1.data, e1.data.length⟩).length +
              (zipCentralChunk ⟨(zipLocalChunk e1).length, utf8Bytes e2.name,
                  crc32 e2.data, e2.data.length⟩).length) ++
      (u32le ((zipLocalChunk e1).length + (zipLocalChunk e2).length) ++
       u16le 0)))))))))) := by
  unfold createZip
  have hsz : ∀ a b c : Nat, a + (b + c) - (a + b) = c := fun a b c => by omega
  simp only [List.foldl_cons, List.foldl_nil, List.nil_append, List.length_nil,
    List.singleton_append, List.cons_append,
    List.map_cons, List.map_nil, List.flatten_cons, List.flatten_nil,
    List.append_nil, List.append_assoc, List.length_append, List.length_cons,
    Nat.zero_add, Nat.add_zero, Nat.reduceAdd, hsz]


lemma centralChunk_layout (cd : CdEntry) (R : List Nat) :
    ((zipCentralChunk cd ++ R).drop 16).take 12 =
      u32le cd.crc ++ u32le cd.size ++ u32le cd.size ∧
    ((zipCentralChunk cd ++ R).drop 42).take 4 = u32le cd.offset ∧
    ((zipCentralChunk cd ++ R).drop 46).take cd.nameBytes.length = cd.nameBytes := by
  refine ⟨?_, ?_, ?_⟩
  · simp [zipCentralChunk, u32le, u16le]
  · simp [zipCentralChunk, u32le, u16le]
  · simp only [zipCentralChunk, u32le, u16le, List.append_assoc, List.cons_append,
      List.nil_append, List.drop_succ_cons, List.drop_zero]
    rw [List.take_left' rfl]

lemma createZip_two_layout (e1 e2 : ZipEntry) :
    (zipLocalChunk e1).length = 30 + (utf8Bytes e1.name).length + e1.data.length ∧
    (zipLocalChunk e2).length = 30 + (utf8Bytes e2.name).length + e2.data.length ∧
    (zipCentralChunk ⟨0, utf8Bytes e1.name, crc32 e1.data, e1.data.length⟩).length =
      46 + (utf8Bytes e1.name).length ∧
    (zipCentralChunk ⟨(zipLocalChunk e1).length, utf8Bytes e2.name, crc32 e2.data,
        e2.data.length⟩).length = 46 + (utf8Bytes e2.name).length ∧
    ((createZip [e1, e2]).drop 8).take 2 = [0, 0] ∧
    ((createZip [e1, e2]).drop 14).take 4 = u32le (crc32 e1.data) ∧
    ((createZip [e1, e2]).drop 18).take 8 =
      u32le e1.data.length ++ u32le e1.data.length ∧
    ((createZip [e1, e2]).drop 30).take (utf8Bytes e1.name).length = utf8Bytes e1.name ∧
    ((createZip [e1, e2]).drop (30 + (utf8Bytes e1.name).length)).take e1.data.length =
      e1.data ∧
    ((createZip [e1, e2]).drop ((zipLocalChunk e1).length + 8)).take 2 = [0, 0] ∧
    ((createZip [e1, e2]).drop ((zipLocalChunk e1).length + 14)).take 4 =
      u32le (crc32 e2.data) ∧
    ((createZip [e1, e2]).drop ((zipLocalChunk e1).length + 18)).take 8 =
      u32le e2.data.length ++ u32le e2.data.length ∧
    ((createZip [e1, e2]).drop ((zipLocalChunk e1).length + 30)).take
      (utf8Bytes e2.name).length = utf8Bytes e2.name ∧
    ((createZip [e1, e2]).drop
        ((zipLocalChunk e1).length + (30 + (utf8Bytes e2.name).length))).take
      e2.data.length = e2.data ∧
    ((createZip [e1, e2]).drop
        ((zipLocalChunk e1).length + (zipLocalChunk e2).length + 16)).take 12 =
      u32le (crc32 e1.data) ++ u32le e1.data.length ++ u32le e1.data.length ∧
    ((createZip [e1, e2]).drop
        ((zipLocalChunk e1).length + (zipLocalChunk e2).length + 42)).take 4 = u32le 0 ∧
    ((createZip [e1, e2]).drop
        ((zipLocalChunk e1).length + (zipLocalChunk e2).length + 46)).take
      (utf8Bytes e1.name).length = utf8Bytes e1.name ∧
    ((createZip [e1, e2]).drop
        ((zipLocalChunk e1).length + (zipLocalChunk e2).length +
          (zipCentralChunk ⟨0, utf8Bytes e1.name, crc32 e1.data,
            e1.data.length⟩).length + 16)).take 12 =
      u32le (crc32 e2.data) ++ u32le e2.data.length ++ u32le e2.data.length ∧
    ((createZip [e1, e2]).drop
        ((zipLocalChunk e1).length + (zipLocalChunk e2).length +
          (zipCentralChunk ⟨0, utf8Bytes e1.name, crc32 e1.data,
            e1.data.length⟩).length + 42)).take 4 = u32le (zipLocalChunk e1).length ∧
    ((createZip [e1, e2]).drop
        ((zipLocalChunk e1).length + (zipLocalChunk e2).length +
          (zipCentralChunk ⟨0, utf8Bytes e1.name, crc32 e1.data,
            e1.data.length⟩).length + 46)).take
      (utf8Bytes e2.name).length = utf8Bytes e2.name ∧
    ((createZip [e1, e2]).drop
        ((zipLocalChunk e1).length + (zipLocalChunk e2).length +
          (zipCentralChunk ⟨0, utf8Bytes e1.name, crc32 e1.data,
            e1.data.length⟩).length +
          (zipCentralChunk ⟨(zipLocalChunk e1).length, utf8Bytes e2.name, crc32 e2.data,
            e2.data.length⟩).length + 8)).take 4 = [2, 0, 2, 0] ∧
    (createZip [e1, e2]).length =
      (zipLocalChunk e1).length + (zipLocalChunk e2).length +
        (zipCentralChunk ⟨0, utf8Bytes e1.name, crc32 e1.data,
          e1.data.length⟩).length +
        (zipCentralChunk ⟨(zipLocalChunk e1).length, utf8Bytes e2.name, crc32 e2.data,
          e2.data.length⟩).length + 22 := by
  rw [createZip_two]
  refine ⟨zipLocalChunk_length e1, zipLocalChunk_length e2, zipCentralChunk_length _,
    zipCentralChunk_length _, (localChunk_layout e1 _).1, (localChunk_layout e1 _).2.1,
    (localChunk_layout e1 _).2.2.1, (localChunk_layout e1 _).2.2.2.1,
    (localChunk_layout e1 _).2.2.2.2, ?_, ?_, ?_, ?_, ?_, ?_, ?_, ?_, ?_, ?_, ?_, ?_, ?_⟩
  · rw [List.drop_append]
    exact (localChunk_layout e2 _).1
  · rw [List.drop_append]
    exact (localChunk_layout e2 _).2.1
  · rw [List.drop_append]
    exact (localChunk_layout e2 _).2.2.1
  · rw [List.drop_append]
    exact (localChunk_layout e2 _).2.2.2.1
  · rw [List.drop_append]
    exact (localChunk_layout e2 _).2.2.2.2
  · rw [dropPastTwo]
    exact (centralChunk_layout _ _).1
  · rw [dropPastTwo]
    exact (centralChunk_layout _ _).2.1
  · rw [dropPastTwo]
    exact (centralChunk_layout ⟨0, utf8Bytes e1.name, crc32 e1.data, e1.data.length⟩ _).2.2
  · rw [dropPastThree]
    exact (centralChunk_layout _ _).1
  · rw [dropPastThree]
    exact (centralChunk_layout _ _).2.1
  · rw [dropPastThree]
    exact (centralChunk_layout ⟨(zipLocalChunk e1).length, utf8Bytes e2.name, crc32 e2.data,
      e2.data.length⟩ _).2.2
  · rw [dropPastFour]
    simp [u32le, u16le]
  · simp [List.length_append, u32le, u16le]
    omega

/-- C8: for buildMode suppress_pairs, convertToNbt returns isZip = true and a
store-only ZIP of exactly two entries, the odd-rows and even-rows halves,
each payload an independently gzip-compressed structure, stored verbatim with
method 0, equal compressed/uncompressed sizes, its CRC-32 in the local header,
and a central directory mirroring each entry's CRC, size and local offset
(0 and the first local chunk's length), ending in a record counting two
entries; for every other build mode convertToNbt returns isZip = false and a
single gzip-compressed structure. -/
theorem c8_suppress_pairs_archive (gz : List Nat → List Nat) (img : ImageData)
    (opts : ConversionOptions) :
    (opts.buildMode = BuildMode.suppress_pairs →
      ∃ e1 e2 : ZipEntry,
      e1.name = opts.baseName ++ "-odd_rows.nbt" ∧
      e1.data = gz (writeStructureNbt
        (normalizeAndMeasure (buildSuppressPairsBlocks img opts).1).1
        (normalizeAndMeasure (buildSuppressPairsBlocks img opts).1).2.sizeX
        (normalizeAndMeasure (buildSuppressPairsBlocks img opts).1).2.sizeY
        (normalizeAndMeasure (buildSuppressPairsBlocks img opts).1).2.sizeZ) ∧
      e2.name = opts.baseName ++ "-even_rows.nbt" ∧
      e2.data = gz (writeStructureNbt
        (normalizeAndMeasure (buildSuppressPairsBlocks img opts).2).1
        (normalizeAndMeasure (buildSuppressPairsBlocks img opts).2).2.sizeX
        (normalizeAndMeasure (buildSuppressPairsBlocks img opts).2).2.sizeY
        (normalizeAndMeasure (buildSuppressPairsBlocks img opts).2).2.sizeZ) ∧
      (convertToNbt gz img opts).2 = true ∧
      (convertToNbt gz img opts).1 = createZip [e1, e2] ∧
      (zipLocalChunk e1).length = 30 + (utf8Bytes e1.name).length + e1.data.length ∧
      (zipLocalChunk e2).length = 30 + (utf8Bytes e2.name).length + e2.data.length ∧
      (zipCentralChunk ⟨0, utf8Bytes e1.name, crc32 e1.data, e1.data.length⟩).length =
        46 + (utf8Bytes e1.name).length ∧
      (zipCentralChunk ⟨(zipLocalChunk e1).length, utf8Bytes e2.name, crc32 e2.data,
          e2.data.length⟩).length = 46 + (utf8Bytes e2.name).length ∧
      ((convertToNbt gz img opts).1.drop 8).take 2 = [0, 0] ∧
      ((convertToNbt gz img opts).1.drop 14).take 4 = u32le (crc32 e1.data) ∧
      ((convertToNbt gz img opts).1.drop 18).take 8 =
        u32le e1.data.length ++ u32le e1.data.length ∧
      ((convertToNbt gz img opts).1.drop 30).take (utf8Bytes e1.name).length =
        utf8Bytes e1.name ∧
      ((convertToNbt gz img opts).1.drop (30 + (utf8Bytes e1.name).length)).take
        e1.data.length = e1.data ∧
      ((convertToNbt gz img opts).1.drop ((zipLocalChunk e1).length + 8)).take 2 =
        [0, 0] ∧
      ((convertToNbt gz img opts).1.drop ((zipLocalChunk e1).length + 14)).take 4 =
        u32le (crc32 e2.data) ∧
      ((convertToNbt gz img opts).1.drop ((zipLocalChunk e1).length + 18)).take 8 =
        u32le e2.data.length ++ u32le e2.data.length ∧
      ((convertToNbt gz img opts).1.drop ((zipLocalChunk e1).length + 30)).take
        (utf8Bytes e2.name).length = utf8Bytes e2.name ∧
      ((convertToNbt gz img opts).1.drop
          ((zipLocalChunk e1).length + (30 + (utf8Bytes e2.name).length))).take
        e2.data.length = e2.data ∧
      ((convertToNbt gz img opts).1.drop
          ((zipLocalChunk e1).length + (zipLocalChunk e2).length + 16)).take 12 =
        u32le (crc32 e1.data) ++ u32le e1.data.length ++ u32le e1.data.length ∧
      ((convertToNbt gz img opts).1.drop
          ((zipLocalChunk e1).length + (zipLocalChunk e2).length + 42)).take 4 =
        u32le 0 ∧
      ((convertToNbt gz img opts).1.drop
          ((zipLocalChunk e1).length + (zipLocalChunk e2).length + 46)).take
        (utf8Bytes e1.name).length = utf8Bytes e1.name ∧
      ((convertToNbt gz img opts).1.drop
          ((zipLocalChunk e1).length + (zipLocalChunk e2).length +
            (zipCentralChunk ⟨0, utf8Bytes e1.name, crc32 e1.data,
              e1.data.length⟩).length + 16)).take 12 =
        u32le (crc32 e2.data) ++ u32le e2.data.length ++ u32le e2.data.length ∧
      ((convertToNbt gz img opts).1.drop
          ((zipLocalChunk e1).length + (zipLocalChunk e2).length +
            (zipCentralChunk ⟨0, utf8Bytes e1.name, crc32 e1.data,
              e1.data.length⟩).length + 42)).take 4 = u32le (zipLocalChunk e1).length ∧
      ((convertToNbt gz img opts).1.drop
          ((zipLocalChunk e1).length + (zipLocalChunk e2).length +
            (zipCentralChunk ⟨0, utf8Bytes e1.name, crc32 e1.data,
              e1.data.length⟩).length + 46)).take
        (utf8Bytes e2.name).length = utf8Bytes e2.name ∧
      ((convertToNbt gz img opts).1.drop
          ((zipLocalChunk e1).length + (zipLocalChunk e2).length +
            (zipCentralChunk ⟨0, utf8Bytes e1.name, crc32 e1.data,
              e1.data.length⟩).length +
            (zipCentralChunk ⟨(zipLocalChunk e1).length, utf8Bytes e2.name, crc32 e2.data,
              e2.data.length⟩).length + 8)).take 4 = [2, 0, 2, 0] ∧
      (convertToNbt gz img opts).1.length =
        (zipLocalChunk e1).length + (zipLocalChunk e2).length +
          (zipCentralChunk ⟨0, utf8Bytes e1.name, crc32 e1.data,
            e1.data.length⟩).length +
          (zipCentralChunk ⟨(zipLocalChunk e1).length, utf8Bytes e2.name, crc32 e2.data,
            e2.data.length⟩).length + 22) ∧
    (opts.buildMode ≠ BuildMode.suppress_pairs →
      (convertToNbt gz img opts).2 = false ∧
      ∃ bl sx sy sz, (convertToNbt gz img opts).1 = gz (writeStructureNbt bl sx sy sz)) := by
  constructor
  · intro hm
    have hout : (convertToNbt gz img opts).1 =
        createZip [⟨opts.baseName ++ "-odd_rows.nbt", gz (writeStructureNbt
            (normalizeAndMeasure (buildSuppressPairsBlocks img opts).1).1
            (normalizeAndMeasure (buildSuppressPairsBlocks img opts).1).2.sizeX
            (normalizeAndMeasure (buildSuppressPairsBlocks img opts).1).2.sizeY
            (normalizeAndMeasure (buildSuppressPairsBlocks img opts).1).2.sizeZ)⟩,
          ⟨opts.baseName ++ "-even_rows.nbt", gz (writeStructureNbt
            (normalizeAndMeasure (buildSuppressPairsBlocks img opts).2).1
            (normalizeAndMeasure (buildSuppressPairsBlocks img opts).2).2.sizeX
            (normalizeAndMeasure (buildSuppressPairsBlocks img opts).2).2.sizeY
            (normalizeAndMeasure (buildSuppressPairsBlocks img opts).2).2.sizeZ)⟩] := by
      simp [convertToNbt, hm]
    have hsnd : (convertToNbt gz img opts).2 = true := by
      simp [convertToNbt, hm]
    refine ⟨_, _, rfl, rfl, rfl, rfl, hsnd, hout, ?_⟩
    rw [hout]
    exact createZip_two_layout _ _
  · intro hne
    by_cases h2 : opts.buildMode = BuildMode.suppress_pairs_ew
    · simp [convertToNbt, hne, h2]
      exact ⟨_, _, _, _, rfl⟩
    · by_cases h3 : opts.buildMode = BuildMode.suppress_dual_layer
      · simp [convertToNbt, hne, h2, h3]
        exact ⟨_, _, _, _, rfl⟩
      · simp [convertToNbt, hne, h2, h3]
        exact ⟨_, _, _, _, rfl⟩

def c8Opts : ConversionOptions :=
  { blockMapping := fun i => if i = 1 then some "grass_block" else Option.none,
    fillerBlock := "stone",
    customColors := [],
    buildMode := BuildMode.suppress_pairs,
    supportMode := SupportMode.none,
    baseName := "map" }

theorem c8_suppress_pairs_archive_witness :
    ((convertToNbt (fun l => l) c2Img c8Opts).2 = true) ∧
    ((convertToNbt (fun l => l) c2Img c2Opts).2 = false) := by
  constructor
  · obtain ⟨e1, e2, -, -, -, -, h, -⟩ :=
      (c8_suppress_pairs_archive (fun l => l) c2Img c8Opts).1 rfl
    exact h
  · exact ((c8_suppress_pairs_archive (fun l => l) c2Img c2Opts).2 (by decide)).1

/-! ## Claim C9 — block-name invariants -/

/-- The final block list serialized by convertToNbt, per build mode (both
halves for suppress_pairs). -/
def pipelineBlocks (img : ImageData) (opts : ConversionOptions) : List BlockEntry :=
  if opts.buildMode = BuildMode.suppress_pairs then
    (normalizeAndMeasure (buildSuppressPairsBlocks img opts).1).1 ++
      (normalizeAndMeasure (buildSuppressPairsBlocks img opts).2).1
  else if opts.buildMode = BuildMode.suppress_pairs_ew then
    (normalizeAndMeasure (applySupport (buildSuppressPairsEWBlocks img opts) opts)).1
  else if opts.buildMode = BuildMode.suppress_dual_layer then
    (normalizeAndMeasure (applySupport (buildSuppressDualLayerBlocks img opts) opts)).1
  else (staircasePipeline img opts).1

/-- Every entry's identifier is produced by resolveBlockName. -/
def ResolvedNames (bl : List BlockEntry) : Prop :=
  ∀ e ∈ bl, ∃ b, e.blockName = resolveBlockName b

lemma rn_nil : ResolvedNames [] := fun e he => absurd he (List.not_mem_nil e)

lemma rn_append {a b : List BlockEntry} (ha : ResolvedNames a) (hb : ResolvedNames b) :
    ResolvedNames (a ++ b) := by
  intro e he
  rcases List.mem_append.mp he with h | h
  · exact ha e h
  · exact hb e h

lemma rn_map_preserve {l : List BlockEntry} {f : BlockEntry → BlockEntry}
    (hf : ∀ e, (f e).blockName = e.blockName) (hl : ResolvedNames l) :
    ResolvedNames (l.map f) := by
  intro e he
  obtain ⟨e0, he0, rfl⟩ := List.mem_map.mp he
  rw [hf]
  exact hl e0 he0

lemma rn_flatten {L : List (List BlockEntry)} (h : ∀ l ∈ L, ResolvedNames l) :
    ResolvedNames L.flatten := by
  intro e he
  obtain ⟨l, hl, hel⟩ := List.mem_flatten.mp he
  exact h l hl e hel

/-- Fold invariance: a state property preserved by every step survives the
whole fold. -/
lemma foldl_preserve {σ α : Type} (P : σ → Prop) (f : σ → α → σ)
    (hf : ∀ s a, P s → P (f s a)) : ∀ (l : List α) (s : σ), P s → P (l.foldl f s) := by
  intro l
  induction l with
  | nil => exact fun s hs => hs
  | cons a t ih => exact fun s hs => ih _ (hf s a hs)

lemma recordSet_mem (r : List (String × String)) (k v : String) :
    (k, v) ∈ recordSet r k v := by
  unfold recordSet
  split
  case isTrue h =>
    obtain ⟨p, hp, hpk⟩ : ∃ p ∈ r, p.1 = k := by simpa using h
    exact List.mem_map.mpr ⟨p, hp, by rw [if_pos hpk]⟩
  case isFalse h => simp

lemma resolveNameProps_leaves (b : String)
    (h : jsIncludes (resolveNameProps b).1 "leaves" = true) :
    ("persistent", "true") ∈ (resolveNameProps b).2 := by
  simp only [resolveNameProps] at h ⊢
  rw [if_pos h]
  exact recordSet_mem _ _ _

lemma assembleBlockName_prefix (n : String) (props : List (String × String)) :
    ("minecraft:".toList).isPrefixOf (assembleBlockName n props).toList = true := by
  unfold assembleBlockName
  rw [List.isPrefixOf_iff_prefix]
  split
  · show "minecraft:".toList <+: ("minecraft:" ++ n ++ "[" ++ _ ++ "]").toList
    simp only [String.toList, String.data_append, List.append_assoc]
    exact List.prefix_append _ _
  · show "minecraft:".toList <+: ("minecraft:" ++ n).toList
    simp only [String.toList, String.data_append]
    exact List.prefix_append _ _

lemma assembleBlockName_ne (n : String) (props : List (String × String)) :
    assembleBlockName n props ≠ "" := by
  intro h
  have hp := assembleBlockName_prefix n props
  rw [h] at hp
  exact absurd hp (by decide)

/-- Every name produced by resolveBlockName is non-empty, carries the
"minecraft:" namespace, and is assembled from the parsed name and property
record, which holds persistent=true whenever the name contains "leaves". -/
lemma resolveBlockName_spec (b : String) :
    resolveBlockName b ≠ "" ∧
    ("minecraft:".toList).isPrefixOf (resolveBlockName b).toList = true ∧
    resolveBlockName b =
      assembleBlockName (resolveNameProps b).1 (resolveNameProps b).2 ∧
    (jsIncludes (resolveNameProps b).1 "leaves" = true →
      ("persistent", "true") ∈ (resolveNameProps b).2) :=
  ⟨assembleBlockName_ne _ _, assembleBlockName_prefix _ _, rfl,
   resolveNameProps_leaves b⟩

lemma rn_staircaseStep (img : ImageData) (opts : ConversionOptions) (gl : Nat)
    (st : ColState) (x z : Nat) : ResolvedNames (staircaseStep img opts gl st x z).2 := by
  intro e he
  unfold staircaseStep at he
  split at he
  · exact absurd he (List.not_mem_nil e)
  · rcases hm : getColorLookup (rgbAt img x z) with _ | m <;>
      rcases hc : customGet opts.customColors (rgbAt img x z) with _ | cm <;>
      simp only [hm, hc] at he
    · exact absurd he (List.not_mem_nil e)
    · repeat' split at he
      all_goals
        simp only [List.mem_append, List.mem_singleton, List.mem_map, List.mem_range,
          List.not_mem_nil, or_false, false_or, or_assoc, List.mem_cons] at he
      all_goals
        first
          | exact absurd he (List.not_mem_nil e)
          | (obtain ⟨d, -, rfl⟩ := he <;> exact ⟨_, rfl⟩)
          | (rcases he with rfl | rfl | rfl | rfl <;> exact ⟨_, rfl⟩)
    · rcases hb : resolveMappedBlock opts.blockMapping m.baseIndex with _ | block <;>
        simp only [hb] at he
      · exact absurd he (List.not_mem_nil e)
      · repeat' split at he
        all_goals
          simp only [List.mem_append, List.mem_singleton, List.mem_map, List.mem_range,
            List.not_mem_nil, or_false, false_or, or_assoc, List.mem_cons] at he
        all_goals
          first
            | exact absurd he (List.not_mem_nil e)
            | (obtain ⟨d, -, rfl⟩ := he <;> exact ⟨_, rfl⟩)
            | (rcases he with rfl | rfl | rfl | rfl <;> exact ⟨_, rfl⟩)
    · repeat' split at he
      all_goals
        simp only [List.mem_append, List.mem_singleton, List.mem_map, List.mem_range,
          List.not_mem_nil, or_false, false_or, or_assoc, List.mem_cons] at he
      all_goals
        first
          | exact absurd he (List.not_mem_nil e)
          | (obtain ⟨d, -, rfl⟩ := he <;> exact ⟨_, rfl⟩)
          | (rcases he with rfl | rfl | rfl | rfl <;> exact ⟨_, rfl⟩)

lemma rn_one {b : BlockEntry} {s : String} (h : b.blockName = resolveBlockName s) :
    ResolvedNames [b] := by
  intro e he
  obtain rfl := List.mem_singleton.mp he
  exact ⟨s, h⟩

lemma rn_buildStaircaseBlocks (img : ImageData) (opts : ConversionOptions) :
    ResolvedNames (buildStaircaseBlocks img opts) := by
  unfold buildStaircaseBlocks staircaseRowState
  refine foldl_preserve (fun (s : List BlockEntry × List ColState) => ResolvedNames s.1)
    (staircaseRowFold img opts) ?_ (List.range 128) _ rn_nil
  intro s z hs
  unfold staircaseRowFold
  exact foldl_preserve (fun (acc : List BlockEntry × List ColState) => ResolvedNames acc.1)
    _ (fun acc x hacc => rn_append hacc (rn_staircaseStep img opts _ _ x z))
    (List.range 128) (s.1, []) hs

lemma rn_valleyProcessSeg (info : Int → Option (Nat × Bool)) (waterZ : Int → Bool)
    (fillerOn : Bool) (fb : String) (x : Int) (st : ValleyState) (seg : ValleySegment)
    (h : ResolvedNames st.fillers) :
    ResolvedNames (valleyProcessSeg info waterZ fillerOn (resolveBlockName fb) x st seg).fillers := by
  unfold valleyProcessSeg
  lift_lets
  extract_lets southZ target0 target1 target2 waterPillarZ waterShade isDark generic wd
    wba target3
  have hgen : ∀ (zl : List Int) (t ty : Int),
      ResolvedNames (if (t - ty) ≠ 0 then valleyApplyDelta zl (t - ty) st else st).fillers := by
    intro zl t ty
    split
    · exact h
    · exact h
  split
  · split
    · exact hgen _ _ _
    · split
      · split
        · lift_lets
          extract_lets nT d2 st1 nF
          split
          · intro e he
            rcases List.mem_append.mp he with h1 | h1
            · exact h e h1
            · obtain ⟨z', -, rfl⟩ := List.mem_map.mp h1
              exact ⟨_, rfl⟩
          · exact h
        · exact hgen _ _ _
      · exact hgen _ _ _
  · exact hgen _ _ _

lemma rn_valleyColumn (img : ImageData) (opts : ConversionOptions)
    (blocks : List BlockEntry) (x : Int) :
    ResolvedNames (valleyColumn img opts blocks x).2 := by
  unfold valleyColumn
  exact foldl_preserve (fun (st : ValleyState) => ResolvedNames st.fillers) _
    (fun s a hs => rn_valleyProcessSeg _ _ _ _ _ s a hs) _ _ rn_nil

lemma rn_applyStaircaseVariant (blocks : List BlockEntry) (mode : BuildMode)
    (img : ImageData) (opts : ConversionOptions) (h : ResolvedNames blocks) :
    ResolvedNames (applyStaircaseVariant blocks mode img opts) := by
  cases mode
  case staircase_classic => exact rn_map_preserve (fun e => by cases rowMinY (columnBlocks blocks e.x) <;> rfl) h
  case staircase_southline => exact rn_map_preserve (fun e => rfl) h
  case staircase_valley =>
    refine rn_append (rn_map_preserve (fun e => rfl) h) (rn_flatten ?_)
    intro l hl
    obtain ⟨x, -, rfl⟩ := List.mem_map.mp hl
    exact rn_valleyColumn img opts blocks x
  case staircase_cancer => exact rn_map_preserve (fun e => rfl) h
  all_goals exact h

lemma rn_addStepSupport (blocks : List BlockEntry) (fb : String)
    (h : ResolvedNames blocks) : ResolvedNames (addStepSupport blocks fb) := by
  unfold addStepSupport
  refine rn_append h ?_
  refine foldl_preserve ResolvedNames _ ?_ _ _ rn_nil
  intro s a hs
  simp only []
  split
  · exact rn_append hs (rn_one rfl)
  · exact hs

lemma rn_addAllSupport (blocks : List BlockEntry) (fb : String)
    (h : ResolvedNames blocks) : ResolvedNames (addAllSupport blocks fb) := by
  unfold addAllSupport
  refine rn_append h ?_
  refine foldl_preserve
    (fun (acc : List (Int × Int × Int) × List BlockEntry) => ResolvedNames acc.2)
    (allSupportStep fb) ?_ blocks _ rn_nil
  intro s a hs
  unfold allSupportStep
  simp only []
  split
  · exact hs
  · exact rn_append hs (rn_one rfl)

lemma rn_addFragileSupport (blocks : List BlockEntry) (fb : String)
    (h : ResolvedNames blocks) : ResolvedNames (addFragileSupport blocks fb) := by
  unfold addFragileSupport
  refine rn_append h ?_
  refine foldl_preserve
    (fun (acc : List (Int × Int × Int) × List BlockEntry) => ResolvedNames acc.2)
    _ ?_ blocks _ rn_nil
  intro s a hs
  simp only []
  repeat' split
  all_goals first | exact hs | exact rn_append hs (rn_one rfl)

lemma rn_addWaterSupport (blocks : List BlockEntry) (fb : String)
    (h : ResolvedNames blocks) : ResolvedNames (addWaterSupport blocks fb) := by
  unfold addWaterSupport
  refine rn_append h ?_
  refine foldl_preserve
    (fun (acc : List (Int × Int × Int) × List (Int × Int × Int) × List BlockEntry) =>
      ResolvedNames acc.2.2) _ ?_ _ _ rn_nil
  intro s a hs
  refine foldl_preserve
    (fun (acc : List (Int × Int × Int) × List (Int × Int × Int) × List BlockEntry) =>
      ResolvedNames acc.2.2) _ ?_ _ s hs
  intro s2 n hs2
  split
  · exact rn_append hs2 (rn_one rfl)
  · exact hs2

lemma rn_applySupport (blocks : List BlockEntry) (opts : ConversionOptions)
    (h : ResolvedNames blocks) : ResolvedNames (applySupport blocks opts) := by
  unfold applySupport
  split
  · exact h
  · split
    · exact rn_addStepSupport blocks opts.fillerBlock h
    · exact rn_addAllSupport blocks opts.fillerBlock h
    · exact rn_addFragileSupport blocks opts.fillerBlock h
    · exact rn_addWaterSupport blocks opts.fillerBlock h
    · exact h

lemma rn_normalizeAndMeasure (blocks : List BlockEntry) (h : ResolvedNames blocks) :
    ResolvedNames (normalizeAndMeasure blocks).1 := by
  unfold normalizeAndMeasure
  split
  · exact rn_nil
  · exact rn_map_preserve (fun e => rfl) h

lemma rn_staircasePipeline (img : ImageData) (opts : ConversionOptions) :
    ResolvedNames (staircasePipeline img opts).1 := by
  unfold staircasePipeline
  exact rn_normalizeAndMeasure _ (rn_applySupport _ _
    (rn_applyStaircaseVariant _ _ _ _ (rn_buildStaircaseBlocks img opts)))

set_option maxHeartbeats 1600000 in
lemma rn_pairsPixelBlocks (img : ImageData) (opts : ConversionOptions) (x z : Nat) :
    ResolvedNames (pairsPixelBlocks img opts x z) := by
  intro e he
  unfold pairsPixelBlocks at he
  split at he
  · exact absurd he (List.not_mem_nil e)
  · rcases hb : suppressBlockChoice opts (getColorLookup (rgbAt img x z))
        (customGet opts.customColors (rgbAt img x z)) with _ | block
    all_goals
      rcases hm : getColorLookup (rgbAt img x z) with _ | m <;>
        rcases hc : customGet opts.customColors (rgbAt img x z) with _ | cm <;>
        rw [hm, hc] at hb <;> simp only [hm, hc, hb] at he
    all_goals try exact absurd he (List.not_mem_nil e)
    all_goals repeat' split at he
    all_goals
      simp only [List.mem_append, List.mem_singleton, List.mem_map, List.mem_range,
        List.not_mem_nil, or_false, false_or, or_assoc, List.mem_cons] at he
    all_goals
      first
        | exact absurd he (List.not_mem_nil e)
        | (obtain ⟨d, -, rfl⟩ := he <;> exact ⟨_, rfl⟩)
        | (rcases he with rfl | rfl | rfl | rfl <;> exact ⟨_, rfl⟩)

set_option maxHeartbeats 4000000 in
lemma rn_ewPixelStep (img : ImageData) (opts : ConversionOptions) (baseY : Int)
    (x z : Nat) (my : Int) : ResolvedNames (ewPixelStep img opts baseY x z my).1 := by
  intro e he
  unfold ewPixelStep at he
  split at he
  · exact absurd he (List.not_mem_nil e)
  · rcases hb : suppressBlockChoice opts (getColorLookup (rgbAt img x z))
        (customGet opts.customColors (rgbAt img x z)) with _ | block
    all_goals
      rcases hm : getColorLookup (rgbAt img x z) with _ | m <;>
        rcases hc : customGet opts.customColors (rgbAt img x z) with _ | cm <;>
        rw [hm, hc] at hb <;> simp only [hm, hc, hb, apply_ite Prod.fst] at he
    all_goals try exact absurd he (List.not_mem_nil e)
    all_goals repeat' split at he
    all_goals
      simp only [List.mem_append, List.mem_singleton, List.mem_map, List.mem_range,
        List.not_mem_nil, or_false, false_or, or_assoc, List.mem_cons] at he
    all_goals
      first
        | exact absurd he (List.not_mem_nil e)
        | (obtain ⟨d, -, rfl⟩ := he <;> exact ⟨_, rfl⟩)
        | (rcases he with rfl | rfl | rfl | rfl <;> exact ⟨_, rfl⟩)

lemma rn_ewStep (img : ImageData) (opts : ConversionOptions) (stepIdx : Nat)
    (baseY : Int) : ResolvedNames (ewStep img opts stepIdx baseY).1 := by
  unfold ewStep
  refine foldl_preserve (fun (acc : List BlockEntry × Int) => ResolvedNames acc.1)
    _ ?_ _ _ rn_nil
  intro s xcol hs
  refine foldl_preserve (fun (acc : List BlockEntry × Int) => ResolvedNames acc.1)
    _ ?_ _ s hs
  intro s2 zrow hs2
  simp only []
  split <;> split
  all_goals
    first
      | exact hs2
      | exact rn_append hs2 (rn_ewPixelStep img opts baseY xcol zrow s2.2)

lemma rn_buildSuppressPairsEWBlocks (img : ImageData) (opts : ConversionOptions) :
    ResolvedNames (buildSuppressPairsEWBlocks img opts) := by
  unfold buildSuppressPairsEWBlocks buildSuppressPairsEWSteps
  refine rn_flatten ?_
  refine foldl_preserve
    (fun (acc : List (List BlockEntry) × Int) => ∀ l ∈ acc.1, ResolvedNames l)
    _ ?_ (List.range 128) ([], 0) (fun l hl => absurd hl (List.not_mem_nil l))
  intro s stepIdx hsl l hl
  rcases List.mem_append.mp hl with h1 | h1
  · exact hsl l h1
  · obtain rfl := List.mem_singleton.mp h1
    exact rn_ewStep img opts stepIdx s.2

set_option maxHeartbeats 1600000 in
lemma rn_dualPixelBlocks (img : ImageData) (opts : ConversionOptions) (L1 L2 : Int)
    (x z : Nat) : ResolvedNames (dualPixelBlocks img opts L1 L2 x z) := by
  intro e he
  unfold dualPixelBlocks at he
  rcases hi : dualPixelInfo img opts (Int.ofNat x) (Int.ofNat z) with _ | info4 <;>
    simp only [hi] at he
  · exact absurd he (List.not_mem_nil e)
  · repeat' split at he
    all_goals
      simp only [List.mem_append, List.mem_singleton, List.mem_map, List.mem_range,
        List.not_mem_nil, or_false, false_or, or_assoc, List.mem_cons] at he
    all_goals
      first
        | exact absurd he (List.not_mem_nil e)
        | (obtain ⟨d, -, rfl⟩ := he <;> exact ⟨_, rfl⟩)
        | (rcases he with rfl | rfl | rfl | rfl <;> exact ⟨_, rfl⟩)

lemma rn_buildSuppressDualLayerBlocks (img : ImageData) (opts : ConversionOptions) :
    ResolvedNames (buildSuppressDualLayerBlocks img opts) := by
  unfold buildSuppressDualLayerBlocks
  refine rn_flatten ?_
  intro l hl
  obtain ⟨xcol, -, rfl⟩ := List.mem_map.mp hl
  refine rn_flatten ?_
  intro l2 hl2
  obtain ⟨zrow, -, rfl⟩ := List.mem_map.mp hl2
  exact rn_dualPixelBlocks img opts _ _ xcol zrow

lemma rn_pairsHalf (img : ImageData) (opts : ConversionOptions) (startRow : Nat) :
    ResolvedNames (pairsHalf img opts startRow) := by
  unfold pairsHalf
  have hbase : ResolvedNames (((List.range 128).map (fun z =>
      if z % 2 = startRow then
        ((List.range 128).map (fun x => pairsPixelBlocks img opts x z)).flatten
      else [])).flatten) := by
    refine rn_flatten ?_
    intro l hl
    obtain ⟨zrow, -, rfl⟩ := List.mem_map.mp hl
    split
    · refine rn_flatten ?_
      intro l2 hl2
      obtain ⟨xcol, -, rfl⟩ := List.mem_map.mp hl2
      exact rn_pairsPixelBlocks img opts xcol zrow
    · exact rn_nil
  split
  · exact rn_applySupport _ opts hbase
  · exact hbase

lemma rn_pipelineBlocks (img : ImageData) (opts : ConversionOptions) :
    ResolvedNames (pipelineBlocks img opts) := by
  unfold pipelineBlocks
  split
  · exact rn_append
      (rn_normalizeAndMeasure _ (rn_pairsHalf img opts 0))
      (rn_normalizeAndMeasure _ (rn_pairsHalf img opts 1))
  · split
    · exact rn_normalizeAndMeasure _
        (rn_applySupport _ opts (rn_buildSuppressPairsEWBlocks img opts))
    · split
      · exact rn_normalizeAndMeasure _
          (rn_applySupport _ opts (rn_buildSuppressDualLayerBlocks img opts))
      · exact rn_staircasePipeline img opts

set_option maxRecDepth 4000 in
/-- C9: every voxel placement reaching the serializer, in every build mode,
carries an identifier produced by resolveBlockName, hence non-empty,
"minecraft:"-namespaced, assembled from the parsed name and properties, with
persistent=true recorded for names containing "leaves"; and no builder step
emits anything for a transparent pixel or for a pixel matching neither the
palette lookup nor a custom color. -/
theorem c9_name_invariants (img : ImageData) (opts : ConversionOptions) :
    (∀ e ∈ pipelineBlocks img opts, ∃ b, e.blockName = resolveBlockName b) ∧
    (∀ b : String,
      resolveBlockName b ≠ "" ∧
      ("minecraft:".toList).isPrefixOf (resolveBlockName b).toList = true ∧
      resolveBlockName b =
        assembleBlockName (resolveNameProps b).1 (resolveNameProps b).2 ∧
      (jsIncludes (resolveNameProps b).1 "leaves" = true →
        ("persistent", "true") ∈ (resolveNameProps b).2)) ∧
    (∀ (gl : Nat) (st : ColState) (x z : Nat), alphaAt img x z = 0 →
      (staircaseStep img opts gl st x z).2 = []) ∧
    (∀ (gl : Nat) (st : ColState) (x z : Nat),
      getColorLookup (rgbAt img x z) = Option.none →
      customGet opts.customColors (rgbAt img x z) = Option.none →
      (staircaseStep img opts gl st x z).2 = []) ∧
    (∀ x z : Nat, alphaAt img x z = 0 → pairsPixelBlocks img opts x z = []) ∧
    (∀ x z : Nat, getColorLookup (rgbAt img x z) = Option.none →
      customGet opts.customColors (rgbAt img x z) = Option.none →
      pairsPixelBlocks img opts x z = []) ∧
    (∀ (baseY : Int) (x z : Nat) (my : Int), alphaAt img x z = 0 →
      (ewPixelStep img opts baseY x z my).1 = []) ∧
    (∀ (baseY : Int) (x z : Nat) (my : Int),
      getColorLookup (rgbAt img x z) = Option.none →
      customGet opts.customColors (rgbAt img x z) = Option.none →
      (ewPixelStep img opts baseY x z my).1 = []) ∧
    (∀ (L1 L2 : Int) (x z : Nat), alphaAt img x z = 0 →
      dualPixelBlocks img opts L1 L2 x z = []) ∧
    (∀ (L1 L2 : Int) (x z : Nat),
      getColorLookup (rgbAt img x z) = Option.none →
      customGet opts.customColors (rgbAt img x z) = Option.none →
      dualPixelBlocks img opts L1 L2 x z = []) := by
  refine ⟨rn_pipelineBlocks img opts, resolveBlockName_spec, ?_, ?_, ?_, ?_, ?_, ?_, ?_, ?_⟩
  · intro gl st x z h
    rw [staircaseStep_transparent img opts gl st x z h]
  · intro gl st x z hm hc
    by_cases ha : alphaAt img x z = 0
    · rw [staircaseStep_transparent img opts gl st x z ha]
    · simp [staircaseStep, ha, hm, hc]
  · intro x z h
    unfold pairsPixelBlocks
    rw [if_pos h]
  · intro x z hm hc
    by_cases ha : alphaAt img x z = 0
    · unfold pairsPixelBlocks
      rw [if_pos ha]
    · simp [pairsPixelBlocks, ha, hm, hc]
  · intro baseY x z my h
    unfold ewPixelStep
    rw [if_pos h]
  · intro baseY x z my hm hc
    by_cases ha : alphaAt img x z = 0
    · unfold ewPixelStep
      rw [if_pos ha]
    · simp [ewPixelStep, ha, hm, hc]
  · intro L1 L2 x z h
    have hi : dualPixelInfo img opts (Int.ofNat x) (Int.ofNat z) = Option.none := by
      have hx : (Int.ofNat x).toNat = x := rfl
      have hz2 : (Int.ofNat z).toNat = z := rfl
      unfold dualPixelInfo
      split
      · rw [hx, hz2, if_pos h]
      · rfl
    unfold dualPixelBlocks
    rw [hi]
  · intro L1 L2 x z hm hc
    have hi : dualPixelInfo img opts (Int.ofNat x) (Int.ofNat z) = Option.none := by
      have hx : (Int.ofNat x).toNat = x := rfl
      have hz2 : (Int.ofNat z).toNat = z := rfl
      unfold dualPixelInfo
      split
      · rw [hx, hz2]
        by_cases ha : alphaAt img x z = 0
        · rw [if_pos ha]
        · rw [if_neg ha]
          simp only [hm, hc]
      · rfl
    unfold dualPixelBlocks
    rw [hi]

set_option maxRecDepth 4000 in
theorem c9_name_invariants_witness :
    resolveBlockName "oak_leaves" ≠ "" ∧
    ("persistent", "true") ∈ (resolveNameProps "oak_leaves").2 ∧
    (staircaseStep c2Img c2Opts 0 initialColState 0 0).2 = [] := by
  obtain ⟨-, h2, h3, -⟩ := c9_name_invariants c2Img c2Opts
  obtain ⟨hne, -, -, hp⟩ := h2 "oak_leaves"
  exact ⟨hne, hp (by decide), h3 0 initialColState 0 0 (by decide)⟩
end PngToNbt
